import Mathlib

/-
Verification of the gesture-recognition and animation state-machine core of
the "Project Limitless" cursed-energy AR engine (src/main.py).

Shallow embedding conventions:
* Python floats are modelled as exact rationals (ℚ).  Every numeric literal of
  the source (0.85, 0.04, 0.15, ...) becomes the corresponding rational.
* Python `int(x)` truncates toward zero; `pyInt` below reproduces this.
* Python `//` on integers is floor division; it is modelled with `Int.fdiv`.
* Comparisons of Euclidean distances `math.sqrt(e) < c` (with `e, c ≥ 0`) are
  modelled by the equivalent squared comparison `e < c^2`, which keeps every
  definition inside ℚ; squaring is strictly monotone on nonnegatives, so the
  comparisons agree with the source's.
* The inter-hand distance itself (not just a comparison) flows into
  `GestureState.hand_distance` and from there into Red's spawn-scale target,
  so the square root cannot be eliminated there; the distance function is
  taken as a parameter `distFn` of `GestureDetector.detect` (the source uses
  the Euclidean distance of the two wrist landmarks).
* Randomness (the ±4px blend jitter) is modelled as an explicit input stream.
* Rendering, camera, audio and window code are excluded, as in the spec.
-/

namespace Limitless

/-! ## Configuration constants (src/main.py lines 32-96) -/

def CANVAS_WIDTH : Int := 1280
def CANVAS_HEIGHT : Int := 720
def DELTA_SMOOTHING : ℚ := 1/2
def VOID_MOVE_SPEED : ℚ := 5/2
def FINGER_WEIGHT : ℚ := 6/10
def PALM_WEIGHT : ℚ := 6/10
def NAMASTE_THRESHOLD : ℚ := 14/100
def APART_THRESHOLD : ℚ := 45/100
def FIST_CURL : ℚ := 85/100
def CROSSED_FINGER_THRESHOLD : ℚ := 4/100
def FIST_FRAMES_REQUIRED : Nat := 3
def CROSSED_FRAMES_REQUIRED : Nat := 5
def PURPLE_BLEND_FRAMES : Nat := 90
def COLLISION_THRESHOLD : Int := 80
def SPAWN_SCALE_SPEED : ℚ := 4/100
def EXPLOSION_FRAMES : Nat := 60
def LOST_THRESHOLD : Nat := 15
def MAX_DELTA : ℚ := 5/100

/-- Python's `int(x)` conversion: truncation toward zero. -/
def pyInt (q : ℚ) : Int := Int.tdiv q.num (q.den : Int)

/-! ## Landmarks and geometric gesture tests (GestureDetector, lines 102-247) -/

/-- One normalized 2D hand landmark. -/
structure Landmark where
  x : ℚ
  y : ℚ
deriving DecidableEq

/-- Squared Euclidean distance between two landmarks.  The source's
`_landmark_dist` is its square root; all uses below compare it against
nonnegative bounds, so the squared comparison is used. -/
def sqDist (a b : Landmark) : ℚ :=
  (a.x - b.x) * (a.x - b.x) + (a.y - b.y) * (a.y - b.y)

/-- The nine landmarks the gesture code reads (wrist plus the MCP and tip of
the four non-thumb fingers; MediaPipe indices 0, 5, 8, 9, 12, 13, 16, 17, 20). -/
structure HandLandmarks where
  wrist : Landmark
  index_mcp : Landmark
  index_tip : Landmark
  middle_mcp : Landmark
  middle_tip : Landmark
  ring_mcp : Landmark
  ring_tip : Landmark
  pinky_mcp : Landmark
  pinky_tip : Landmark
deriving DecidableEq

/-- `tip_dist < mcp_dist * FIST_CURL_RATIO` of `_is_fist`, in squared form. -/
def fingerCurled (tip mcp wrist : Landmark) : Bool :=
  decide (sqDist tip wrist < FIST_CURL ^ 2 * sqDist mcp wrist)

/-- Number of curled non-thumb fingers (`curled_count` of `_is_fist`). -/
def curledCount (h : HandLandmarks) : Nat :=
  (if fingerCurled h.index_tip h.index_mcp h.wrist then 1 else 0) +
  (if fingerCurled h.middle_tip h.middle_mcp h.wrist then 1 else 0) +
  (if fingerCurled h.ring_tip h.ring_mcp h.wrist then 1 else 0) +
  (if fingerCurled h.pinky_tip h.pinky_mcp h.wrist then 1 else 0)

/-- `GestureDetector._is_fist` (lines 153-179). -/
def is_fist (h : HandLandmarks) : Bool :=
  decide (curledCount h ≥ 4)

/-- `dist(tip, wrist) > dist(mcp, wrist)` of `_is_open_hand`, squared form. -/
def fingerExtended (tip mcp wrist : Landmark) : Bool :=
  decide (sqDist tip wrist > sqDist mcp wrist)

/-- Number of extended fingers in `_is_open_hand`. -/
def extendedCount (h : HandLandmarks) : Nat :=
  (if fingerExtended h.index_tip h.index_mcp h.wrist then 1 else 0) +
  (if fingerExtended h.middle_tip h.middle_mcp h.wrist then 1 else 0) +
  (if fingerExtended h.ring_tip h.ring_mcp h.wrist then 1 else 0) +
  (if fingerExtended h.pinky_tip h.pinky_mcp h.wrist then 1 else 0)

/-- `GestureDetector._is_open_hand` (lines 181-198). -/
def is_open_hand (h : HandLandmarks) : Bool :=
  decide (extendedCount h ≥ 3)

/-- `GestureDetector._is_crossed_fingers` (lines 200-247).  The relaxed curl
test `dist < mcp_dist * 1.1` becomes `sqDist < (11/10)^2 * sqDist`, and the
tip-touch test `dist < THRESH * 0.5` becomes `sqDist < (THRESH * (1/2))^2`. -/
def is_crossed_fingers (h : HandLandmarks) : Bool :=
  if ¬(fingerExtended h.index_tip h.index_mcp h.wrist = true ∧
       fingerExtended h.middle_tip h.middle_mcp h.wrist = true) then false
  else if ¬(sqDist h.ring_tip h.wrist < (11/10) ^ 2 * sqDist h.ring_mcp h.wrist ∨
            sqDist h.pinky_tip h.wrist < (11/10) ^ 2 * sqDist h.pinky_mcp h.wrist)
  then false
  else
    let mcp_gap := h.index_mcp.x - h.middle_mcp.x
    let tip_gap := h.index_tip.x - h.middle_tip.x
    if mcp_gap * tip_gap < 0 ∧ |tip_gap| < CROSSED_FINGER_THRESHOLD * 3 then true
    else if sqDist h.index_tip h.middle_tip < (CROSSED_FINGER_THRESHOLD * (1/2)) ^ 2 then true
    else false

/-! ## GestureState and the debounced detector (lines 123-316) -/

/-- The per-frame gesture snapshot produced by `GestureDetector.detect`. -/
structure GestureState where
  hand_distance : ℚ
  namaste : Bool
  hands_apart : Bool
  left_fist : Bool
  right_fist : Bool
  crossed_fingers : Bool
  left_crossed_fingers : Bool
  left_open : Bool
  right_open : Bool
deriving DecidableEq

/-- `GestureDetector._empty_state`: distance sentinel -1, all flags false. -/
def emptyState : GestureState :=
  { hand_distance := -1
    namaste := false
    hands_apart := false
    left_fist := false
    right_fist := false
    crossed_fingers := false
    left_crossed_fingers := false
    left_open := false
    right_open := false }

/-- The persistent debounce counters of `GestureDetector.__init__`. -/
structure GestureDetector where
  left_fist_frames : Nat
  right_fist_frames : Nat
  left_crossed_frames : Nat
  right_crossed_frames : Nat
deriving DecidableEq

def GestureDetector.init : GestureDetector :=
  { left_fist_frames := 0, right_fist_frames := 0
    left_crossed_frames := 0, right_crossed_frames := 0 }

/-- `GestureDetector.detect` (lines 249-316).  `distFn` abstracts the
Euclidean wrist-to-wrist distance (see the header note); the source's
`self.prev_state` is write-only and omitted. -/
def GestureDetector.detect (g : GestureDetector) (distFn : Landmark → Landmark → ℚ)
    (left right : Option HandLandmarks) : GestureDetector × GestureState :=
  let state1 :=
    match left, right with
    | some l, some r =>
        let dist := distFn l.wrist r.wrist
        { emptyState with
            hand_distance := dist
            namaste := decide (dist < NAMASTE_THRESHOLD)
            hands_apart := decide (dist > APART_THRESHOLD) }
    | _, _ => emptyState
  let p1 :=
    match left with
    | some l =>
        let lff := if is_fist l then g.left_fist_frames + 1 else 0
        let lcf := if is_crossed_fingers l then g.left_crossed_frames + 1 else 0
        ({ g with left_fist_frames := lff, left_crossed_frames := lcf },
         { state1 with
             left_open := is_open_hand l
             left_fist := decide (lff ≥ FIST_FRAMES_REQUIRED)
             left_crossed_fingers := decide (lcf ≥ CROSSED_FRAMES_REQUIRED) })
    | none => ({ g with left_fist_frames := 0, left_crossed_frames := 0 }, state1)
  match right with
  | some r =>
      let rff := if is_fist r then p1.1.right_fist_frames + 1 else 0
      let rcf := if is_crossed_fingers r then p1.1.right_crossed_frames + 1 else 0
      ({ p1.1 with right_fist_frames := rff, right_crossed_frames := rcf },
       { p1.2 with
           right_open := is_open_hand r
           right_fist := decide (rff ≥ FIST_FRAMES_REQUIRED)
           crossed_fingers := decide (rcf ≥ CROSSED_FRAMES_REQUIRED) })
  | none => ({ p1.1 with right_fist_frames := 0, right_crossed_frames := 0 }, p1.2)

/-- Iterated `detect` over a list of per-frame (left, right) observations. -/
def runDetect (distFn : Landmark → Landmark → ℚ)
    (p : GestureDetector × GestureState)
    (inputs : List (Option HandLandmarks × Option HandLandmarks)) :
    GestureDetector × GestureState :=
  inputs.foldl (fun acc i => acc.1.detect distFn i.1 i.2) p

/-! ## Motion filter: HandTracker persistence and deltas (lines 742-967) -/

/-- Per-hand motion state of `HandTracker`: the blended tracking point, the
previous frame's point, the published deltas (which the source sets to the
smoothed deltas), the smoothed deltas, and the lost-frame counter.  The
stored landmarks are cleared together with `hand_pos` and carry no extra
motion information, so they are not repeated here. -/
structure HandMotion where
  hand_pos : Option (ℚ × ℚ)
  prev_pos : Option (ℚ × ℚ)
  dx : ℚ
  dy : ℚ
  smooth_dx : ℚ
  smooth_dy : ℚ
  lost_frames : Nat
deriving DecidableEq

def HandMotion.init : HandMotion :=
  { hand_pos := none, prev_pos := none
    dx := 0, dy := 0, smooth_dx := 0, smooth_dy := 0, lost_frames := 0 }

/-- The per-hand detection/persistence part of `HandTracker.process_frame`
(lines 845-881): a detection stores the point and resets `lost_frames`; a
miss increments it and clears the position once it exceeds `LOST_THRESHOLD`. -/
def persistStep (h : HandMotion) (obs : Option (ℚ × ℚ)) : HandMotion :=
  match obs with
  | some p => { h with hand_pos := some p, lost_frames := 0 }
  | none =>
      let lost := h.lost_frames + 1
      if lost > LOST_THRESHOLD then { h with lost_frames := lost, hand_pos := none }
      else { h with lost_frames := lost }

/-- The clamped raw x-delta computed inside `_calculate_deltas` (0 in the
reset branch, where no raw delta is computed). -/
def rawDX (h : HandMotion) : ℚ :=
  match h.hand_pos, h.prev_pos with
  | some c, some p => max (-MAX_DELTA) (min MAX_DELTA (c.1 - p.1))
  | _, _ => 0

/-- The clamped raw y-delta computed inside `_calculate_deltas`. -/
def rawDY (h : HandMotion) : ℚ :=
  match h.hand_pos, h.prev_pos with
  | some c, some p => max (-MAX_DELTA) (min MAX_DELTA (c.2 - p.2))
  | _, _ => 0

/-- `HandTracker._calculate_deltas` for one hand (lines 917-967): smooth the
clamped raw delta when both current and previous positions exist, otherwise
reset everything to exactly 0; finally store current as previous. -/
def calcDeltas (h : HandMotion) : HandMotion :=
  if h.hand_pos.isSome = true ∧ h.prev_pos.isSome = true then
    { h with smooth_dx := DELTA_SMOOTHING * h.smooth_dx + (1 - DELTA_SMOOTHING) * rawDX h
             smooth_dy := DELTA_SMOOTHING * h.smooth_dy + (1 - DELTA_SMOOTHING) * rawDY h
             dx := DELTA_SMOOTHING * h.smooth_dx + (1 - DELTA_SMOOTHING) * rawDX h
             dy := DELTA_SMOOTHING * h.smooth_dy + (1 - DELTA_SMOOTHING) * rawDY h
             prev_pos := h.hand_pos }
  else
    { h with dx := 0, dy := 0, smooth_dx := 0, smooth_dy := 0,
             prev_pos := h.hand_pos }

/-- One hand's slice of `HandTracker.process_frame`: persistence handling
followed by `_calculate_deltas`. -/
def motionStep (h : HandMotion) (obs : Option (ℚ × ℚ)) : HandMotion :=
  calcDeltas (persistStep h obs)

/-- The motion-filter state of the tracker: both hands (the source stores
the same fields twice with `left_`/`right_` prefixes and runs the identical
code on each). -/
structure HandTracker where
  left : HandMotion
  right : HandMotion
deriving DecidableEq

def HandTracker.init : HandTracker :=
  { left := HandMotion.init, right := HandMotion.init }

/-- The motion-filter part of `process_frame` for one captured frame, given
each hand's blended tracking point (or absence). -/
def trackerStep (t : HandTracker) (lobs robs : Option (ℚ × ℚ)) : HandTracker :=
  { left := motionStep t.left lobs, right := motionStep t.right robs }

/-- Iterated `trackerStep` over a list of frames. -/
def runTracker (t : HandTracker) (frames : List (Option (ℚ × ℚ) × Option (ℚ × ℚ))) :
    HandTracker :=
  frames.foldl (fun s f => trackerStep s f.1 f.2) t

/-! ## CursedEnergy entity (lines 322-453) -/

inductive EnergyState where
  | INACTIVE
  | SPAWNING
  | ACTIVE
deriving DecidableEq

/-- One cursed-energy entity.  Rendering-only fields (colors, radii,
particle counts) and the write-only `spawn_pos` are omitted; `spin_speed`
is kept because `update` reads it. -/
structure CursedEnergy where
  state : EnergyState
  posx : Int
  posy : Int
  scale : ℚ
  rotation : ℚ
  breath_phase : ℚ
  spin_speed : ℚ
deriving DecidableEq

/-- `CursedEnergy.__init__` with the given type-specific spin speed; the
initial position is the canvas center. -/
def CursedEnergy.init (spin : ℚ) : CursedEnergy :=
  { state := EnergyState.INACTIVE
    posx := Int.fdiv CANVAS_WIDTH 2, posy := Int.fdiv CANVAS_HEIGHT 2
    scale := 0, rotation := 0, breath_phase := 0, spin_speed := spin }

/-- `CursedEnergy.spawn` (lines 363-369). -/
def CursedEnergy.spawn (e : CursedEnergy) (x y : Int) : CursedEnergy :=
  { e with state := EnergyState.SPAWNING, posx := x, posy := y,
           scale := 0, rotation := 0 }

/-- `CursedEnergy.activate` (lines 371-374). -/
def CursedEnergy.activate (e : CursedEnergy) : CursedEnergy :=
  { e with state := EnergyState.ACTIVE, scale := 1 }

/-- `CursedEnergy.dismiss` (lines 376-379). -/
def CursedEnergy.dismiss (e : CursedEnergy) : CursedEnergy :=
  { e with state := EnergyState.INACTIVE, scale := 0 }

/-- `CursedEnergy.move` (lines 381-389): translate only while ACTIVE, then
clamp to the canvas minus a 40px margin. -/
def CursedEnergy.move (e : CursedEnergy) (dx dy : ℚ) : CursedEnergy :=
  if e.state = EnergyState.ACTIVE then
    { e with
        posx := max 40 (min (CANVAS_WIDTH - 40) (e.posx + pyInt dx))
        posy := max 40 (min (CANVAS_HEIGHT - 40) (e.posy + pyInt dy)) }
  else e

/-- `CursedEnergy.update` (lines 391-396): per-frame animation advance. -/
def CursedEnergy.update (e : CursedEnergy) : CursedEnergy :=
  if e.state = EnergyState.INACTIVE then e
  else { e with rotation := e.rotation + e.spin_speed,
                breath_phase := e.breath_phase + 1/10 }

/-! ## TechniqueManager (lines 459-650) -/

/-- The deltas `TechniqueManager.update` reads from the tracker. -/
structure TrackerDeltas where
  left_dx : ℚ
  left_dy : ℚ
  right_dx : ℚ
  right_dy : ℚ
deriving DecidableEq

def TrackerDeltas.zero : TrackerDeltas := ⟨0, 0, 0, 0⟩

/-- The four `random.randint(-4, 4)` draws of one blending tick
(blue x, blue y, red x, red y), modelled as an input. -/
structure Jitter where
  bjx : Int
  bjy : Int
  rjx : Int
  rjy : Int
deriving DecidableEq

def Jitter.zero : Jitter := ⟨0, 0, 0, 0⟩

structure TechniqueManager where
  blue : CursedEnergy
  red : CursedEnergy
  purple : CursedEnergy
  was_namaste : Bool
  was_apart : Bool
  was_left_crossed : Bool
  was_right_crossed : Bool
  blend_timer : Nat
  blending : Bool
  exploding : Bool
  explosion_timer : Nat
  explosion_posx : Int
  explosion_posy : Int
deriving DecidableEq

/-- `TechniqueManager.__init__` (lines 465-483); the spin speeds are the
type-specific constants of `CursedEnergy.__init__`. -/
def TechniqueManager.init : TechniqueManager :=
  { blue := CursedEnergy.init (-(8/100))
    red := CursedEnergy.init (6/100)
    purple := CursedEnergy.init (4/100)
    was_namaste := false, was_apart := false
    was_left_crossed := false, was_right_crossed := false
    blend_timer := 0, blending := false
    exploding := false, explosion_timer := 0
    explosion_posx := 0, explosion_posy := 0 }

/-- The explosion lock-out branch of `update` (lines 494-508): advance the
timer, shrink and possibly force-dismiss Purple, end at `EXPLOSION_FRAMES`;
the branch returns without running anything else. -/
def TechniqueManager.explosionTick (m : TechniqueManager) : TechniqueManager :=
  let t := m.explosion_timer + 1
  let progress : ℚ := (t : ℚ) / (EXPLOSION_FRAMES : ℚ)
  let purple :=
    if m.purple.state ≠ EnergyState.INACTIVE then
      let p := { m.purple with scale := max 0 (1 - progress * 2) }
      if progress > 3/10 then p.dismiss else p
    else m.purple
  if t ≥ EXPLOSION_FRAMES then
    { m with purple := purple, exploding := false, explosion_timer := 0 }
  else
    { m with purple := purple, explosion_timer := t }

/-- The blend lock-out branch of `update` (lines 513-549): advance the
timer; while Blue is not inactive pull Blue/Red toward their midpoint with
jitter, fade the scales and track Purple's position; on completion dismiss
Blue and Red and activate Purple; entity animations still advance. -/
def TechniqueManager.blendTick (m : TechniqueManager) (jit : Jitter) : TechniqueManager :=
  let t := m.blend_timer + 1
  let mA := { m with blend_timer := t }
  let mB :=
    if mA.blue.state ≠ EnergyState.INACTIVE then
      let mid_x := Int.fdiv (mA.blue.posx + mA.red.posx) 2
      let mid_y := Int.fdiv (mA.blue.posy + mA.red.posy) 2
      let progress : ℚ := (mA.blend_timer : ℚ) / (PURPLE_BLEND_FRAMES : ℚ)
      { mA with
          blue := { mA.blue with
              posx := mA.blue.posx + pyInt (((mid_x - mA.blue.posx : Int) : ℚ) * (5/100)) + jit.bjx
              posy := mA.blue.posy + pyInt (((mid_y - mA.blue.posy : Int) : ℚ) * (5/100)) + jit.bjy
              scale := max 0 (1 - progress) }
          red := { mA.red with
              posx := mA.red.posx + pyInt (((mid_x - mA.red.posx : Int) : ℚ) * (5/100)) + jit.rjx
              posy := mA.red.posy + pyInt (((mid_y - mA.red.posy : Int) : ℚ) * (5/100)) + jit.rjy
              scale := max 0 (1 - progress) }
          purple := { mA.purple with scale := min 1 progress, posx := mid_x, posy := mid_y } }
    else mA
  let mC :=
    if t ≥ PURPLE_BLEND_FRAMES then
      { mB with blue := mB.blue.dismiss, red := mB.red.dismiss,
                purple := mB.purple.activate, blending := false }
    else mB
  { mC with blue := mC.blue.update, red := mC.red.update, purple := mC.purple.update }

/-- The BLUE region of `update` (lines 554-574); only `blue` changes. -/
def TechniqueManager.blueRegion (m : TechniqueManager) (gs : GestureState)
    (tr : TrackerDeltas) : TechniqueManager :=
  { m with blue :=
      if m.blue.state = EnergyState.INACTIVE then
        if gs.left_crossed_fingers = true ∧ m.was_left_crossed = false ∧
           m.purple.state ≠ EnergyState.ACTIVE then
          m.blue.spawn (Int.fdiv CANVAS_WIDTH 2) (Int.fdiv CANVAS_HEIGHT 2)
        else m.blue
      else if m.blue.state = EnergyState.SPAWNING then
        let b := { m.blue with scale := m.blue.scale + SPAWN_SCALE_SPEED }
        if b.scale ≥ (95/100 : ℚ) then b.activate else b
      else
        let b := m.blue.move (-tr.left_dx * (CANVAS_WIDTH : ℚ) * VOID_MOVE_SPEED)
                             (tr.left_dy * (CANVAS_HEIGHT : ℚ) * VOID_MOVE_SPEED)
        if gs.left_fist = true then b.dismiss else b }

/-- The RED region of `update` (lines 579-609); only `red` changes.  During
SPAWNING the scale chases a target derived from the live hand distance when
it is available (`dist ≥ 0`), the activation test runs, and then the
namaste-zone cancellation test runs (in that order, as in the source). -/
def TechniqueManager.redRegion (m : TechniqueManager) (gs : GestureState)
    (tr : TrackerDeltas) : TechniqueManager :=
  { m with red :=
      if m.red.state = EnergyState.INACTIVE then
        if gs.hands_apart = true ∧ m.was_apart = false ∧
           ¬(m.purple.state = EnergyState.ACTIVE) then
          m.red.spawn (Int.fdiv CANVAS_WIDTH 2) (Int.fdiv CANVAS_HEIGHT 2)
        else m.red
      else if m.red.state = EnergyState.SPAWNING then
        let dist := gs.hand_distance
        let r :=
          if dist ≥ 0 then
            let target0 := (dist - NAMASTE_THRESHOLD) / (APART_THRESHOLD - NAMASTE_THRESHOLD)
            let target := max 0 (min 1 target0)
            { m.red with scale := m.red.scale + (target - m.red.scale) * (15/100) }
          else
            { m.red with scale := m.red.scale + SPAWN_SCALE_SPEED }
        let r2 := if r.scale ≥ (95/100 : ℚ) then r.activate else r
        if dist ≥ 0 ∧ dist < NAMASTE_THRESHOLD then r2.dismiss else r2
      else
        let r := m.red.move (-tr.right_dx * (CANVAS_WIDTH : ℚ) * VOID_MOVE_SPEED)
                            (tr.right_dy * (CANVAS_HEIGHT : ℚ) * VOID_MOVE_SPEED)
        if gs.right_fist = true then r.dismiss else r }

/-- The PURPLE collision-trigger region of `update` (lines 614-627).  The
source tests `math.sqrt(dx*dx + dy*dy) < COLLISION_THRESHOLD`; on integers
this is equivalent to the squared comparison used here.  The nested
condition structure is flattened into one conjunction. -/
def TechniqueManager.purpleTrigger (m : TechniqueManager) : TechniqueManager :=
  if m.blue.state = EnergyState.ACTIVE ∧ m.red.state = EnergyState.ACTIVE ∧
     m.purple.state = EnergyState.INACTIVE ∧
     (m.blue.posx - m.red.posx) * (m.blue.posx - m.red.posx) +
       (m.blue.posy - m.red.posy) * (m.blue.posy - m.red.posy) <
       COLLISION_THRESHOLD * COLLISION_THRESHOLD then
    { m with blending := true, blend_timer := 0,
             purple := m.purple.spawn (Int.fdiv (m.blue.posx + m.red.posx) 2)
                                      (Int.fdiv (m.blue.posy + m.red.posy) 2) }
  else m

/-- The Purple-active region of `update` (lines 630-639): right-hand
movement and the rising-edge Domain Expansion trigger. -/
def TechniqueManager.purpleActiveRegion (m : TechniqueManager) (gs : GestureState)
    (tr : TrackerDeltas) : TechniqueManager :=
  if m.purple.state = EnergyState.ACTIVE then
    let p := m.purple.move (-tr.right_dx * (CANVAS_WIDTH : ℚ) * VOID_MOVE_SPEED)
                           (tr.right_dy * (CANVAS_HEIGHT : ℚ) * VOID_MOVE_SPEED)
    if gs.crossed_fingers = true ∧ m.was_right_crossed = false then
      { m with purple := p, exploding := true, explosion_timer := 0,
               explosion_posx := p.posx, explosion_posy := p.posy }
    else { m with purple := p }
  else m

/-- "Track edge states" (lines 641-645). -/
def TechniqueManager.trackEdges (m : TechniqueManager) (gs : GestureState) :
    TechniqueManager :=
  { m with was_namaste := gs.namaste, was_apart := gs.hands_apart,
           was_left_crossed := gs.left_crossed_fingers,
           was_right_crossed := gs.crossed_fingers }

/-- "Update animations" (lines 647-650). -/
def TechniqueManager.animUpdate (m : TechniqueManager) : TechniqueManager :=
  { m with blue := m.blue.update, red := m.red.update, purple := m.purple.update }

/-- `TechniqueManager.update` (lines 485-650): explosion lock-out first,
then blend lock-out, otherwise the five regions in source order followed by
edge tracking and animation updates. -/
def TechniqueManager.update (m : TechniqueManager) (gs : GestureState)
    (tr : TrackerDeltas) (jit : Jitter) : TechniqueManager :=
  if m.exploding = true then m.explosionTick
  else if m.blending = true then m.blendTick jit
  else
    TechniqueManager.animUpdate
      (TechniqueManager.trackEdges
        (TechniqueManager.purpleActiveRegion
          (TechniqueManager.purpleTrigger
            (TechniqueManager.redRegion
              (TechniqueManager.blueRegion m gs tr) gs tr)) gs tr) gs)

/-- One tick's worth of orchestrator inputs. -/
structure TMInput where
  gs : GestureState
  tr : TrackerDeltas
  jit : Jitter
deriving DecidableEq

/-- Iterated `TechniqueManager.update` over a list of tick inputs. -/
def runTM (m : TechniqueManager) (inputs : List TMInput) : TechniqueManager :=
  inputs.foldl (fun s i => s.update i.gs i.tr i.jit) m

/-! ## Basic helper lemmas -/

lemma pyInt_zero : pyInt 0 = 0 := rfl

lemma fdiv_cw : Int.fdiv CANVAS_WIDTH 2 = 640 := by decide

lemma fdiv_ch : Int.fdiv CANVAS_HEIGHT 2 = 360 := by decide

lemma CursedEnergy.update_state (e : CursedEnergy) : e.update.state = e.state := by
  unfold CursedEnergy.update; split <;> rfl

lemma CursedEnergy.update_scale (e : CursedEnergy) : e.update.scale = e.scale := by
  unfold CursedEnergy.update; split <;> rfl

lemma CursedEnergy.update_posx (e : CursedEnergy) : e.update.posx = e.posx := by
  unfold CursedEnergy.update; split <;> rfl

lemma CursedEnergy.update_posy (e : CursedEnergy) : e.update.posy = e.posy := by
  unfold CursedEnergy.update; split <;> rfl

/-- With zero deltas and an in-bounds position, `move` is the identity. -/
lemma CursedEnergy.move_zero_id (e : CursedEnergy)
    (hx1 : 40 ≤ e.posx) (hx2 : e.posx ≤ CANVAS_WIDTH - 40)
    (hy1 : 40 ≤ e.posy) (hy2 : e.posy ≤ CANVAS_HEIGHT - 40) :
    e.move 0 0 = e := by
  unfold CursedEnergy.move
  split
  · rw [pyInt_zero]
    simp only [add_zero]
    rw [min_eq_right hx2, max_eq_right hx1, min_eq_right hy2, max_eq_right hy1]
  · rfl

/-! ## Claim C9 -/

/-- C9: `move(dx, dy)` changes the position only when the entity is ACTIVE
(it is the identity in the INACTIVE and SPAWNING states), and when ACTIVE the
resulting position always lies within [40, 1240] × [40, 680] — the canvas
bounds minus the 40px margin — regardless of the magnitude of dx and dy. -/
theorem claim_C9 (e : CursedEnergy) (dx dy : ℚ) :
    (e.state ≠ EnergyState.ACTIVE → e.move dx dy = e) ∧
    (e.state = EnergyState.ACTIVE →
      40 ≤ (e.move dx dy).posx ∧ (e.move dx dy).posx ≤ 1240 ∧
      40 ≤ (e.move dx dy).posy ∧ (e.move dx dy).posy ≤ 680) := by
  constructor
  · intro h
    unfold CursedEnergy.move
    rw [if_neg h]
  · intro h
    unfold CursedEnergy.move
    rw [if_pos h]
    refine ⟨le_max_left _ _, ?_, le_max_left _ _, ?_⟩
    · exact max_le (by norm_num)
        (le_trans (min_le_left _ _) (by norm_num [CANVAS_WIDTH]))
    · exact max_le (by norm_num)
        (le_trans (min_le_left _ _) (by norm_num [CANVAS_HEIGHT]))

/-- A concrete ACTIVE entity used to witness C9. -/
def eC9 : CursedEnergy :=
  { state := EnergyState.ACTIVE, posx := 640, posy := 360,
    scale := 1, rotation := 0, breath_phase := 0, spin_speed := 6/100 }

theorem claim_C9_witness :
    (40 ≤ (eC9.move 123456 (-987654)).posx ∧ (eC9.move 123456 (-987654)).posx ≤ 1240 ∧
     40 ≤ (eC9.move 123456 (-987654)).posy ∧ (eC9.move 123456 (-987654)).posy ≤ 680) ∧
    ({ eC9 with state := EnergyState.SPAWNING }.move 123456 (-987654) =
      { eC9 with state := EnergyState.SPAWNING }) :=
  ⟨(claim_C9 eC9 123456 (-987654)).2 rfl,
   (claim_C9 { eC9 with state := EnergyState.SPAWNING } 123456 (-987654)).1 (by decide)⟩

/-! ## Claim C6 -/

/-- C6: whenever all four non-thumb fingertips satisfy the curl test
`dist(tip, wrist) < dist(mcp, wrist) * 0.85`, `_is_fist` returns true; and
whenever any single fingertip fails the curl test (its distance at or beyond
its MCP distance times the ratio), the curled count drops below 4 and
`_is_fist` returns false. -/
theorem claim_C6 (h : HandLandmarks) :
    (fingerCurled h.index_tip h.index_mcp h.wrist = true →
     fingerCurled h.middle_tip h.middle_mcp h.wrist = true →
     fingerCurled h.ring_tip h.ring_mcp h.wrist = true →
     fingerCurled h.pinky_tip h.pinky_mcp h.wrist = true →
     is_fist h = true) ∧
    (fingerCurled h.index_tip h.index_mcp h.wrist = false →
     curledCount h < 4 ∧ is_fist h = false) ∧
    (fingerCurled h.middle_tip h.middle_mcp h.wrist = false →
     curledCount h < 4 ∧ is_fist h = false) ∧
    (fingerCurled h.ring_tip h.ring_mcp h.wrist = false →
     curledCount h < 4 ∧ is_fist h = false) ∧
    (fingerCurled h.pinky_tip h.pinky_mcp h.wrist = false →
     curledCount h < 4 ∧ is_fist h = false) := by
  refine ⟨?_, ?_, ?_, ?_, ?_⟩
  · intro h1 h2 h3 h4
    simp [is_fist, curledCount, h1, h2, h3, h4]
  all_goals
    intro h1
    have hc : curledCount h < 4 := by
      simp only [curledCount, h1, Bool.false_eq_true, if_false]
      split_ifs <;> omega
    exact ⟨hc, by simp [is_fist, hc, Nat.not_le_of_lt hc]⟩

/-- Concrete landmarks with all four fingers curled (fingertips at 1/10 of
the MCP distance from the wrist). -/
def fistHand : HandLandmarks :=
  { wrist := ⟨0, 0⟩
    index_mcp := ⟨0, 1⟩, index_tip := ⟨0, 1/10⟩
    middle_mcp := ⟨1/10, 1⟩, middle_tip := ⟨1/10, 1/10⟩
    ring_mcp := ⟨2/10, 1⟩, ring_tip := ⟨2/10, 1/10⟩
    pinky_mcp := ⟨3/10, 1⟩, pinky_tip := ⟨3/10, 1/10⟩ }

/-- `fistHand` with the index fingertip perturbed far outward. -/
def unfistHand : HandLandmarks :=
  { fistHand with index_tip := ⟨0, 2⟩ }

theorem claim_C6_witness :
    is_fist fistHand = true ∧ (curledCount unfistHand < 4 ∧ is_fist unfistHand = false) :=
  ⟨(claim_C6 fistHand).1
      (by norm_num [fingerCurled, sqDist, FIST_CURL, fistHand])
      (by norm_num [fingerCurled, sqDist, FIST_CURL, fistHand])
      (by norm_num [fingerCurled, sqDist, FIST_CURL, fistHand])
      (by norm_num [fingerCurled, sqDist, FIST_CURL, fistHand]),
   (claim_C6 unfistHand).2.1
      (by norm_num [fingerCurled, sqDist, FIST_CURL, unfistHand, fistHand])⟩


/-! ## Motion-filter helper lemmas -/

lemma persistStep_prev (h : HandMotion) (obs : Option (ℚ × ℚ)) :
    (persistStep h obs).prev_pos = h.prev_pos := by
  unfold persistStep
  cases obs with
  | some p => rfl
  | none =>
      dsimp only
      split <;> rfl

lemma persistStep_none_keep (h : HandMotion) (hlt : h.lost_frames + 1 ≤ LOST_THRESHOLD) :
    persistStep h none = { h with lost_frames := h.lost_frames + 1 } := by
  unfold persistStep
  dsimp only
  rw [if_neg]
  omega

lemma persistStep_none_clear (h : HandMotion) (hge : LOST_THRESHOLD < h.lost_frames + 1) :
    persistStep h none = { h with lost_frames := h.lost_frames + 1, hand_pos := none } := by
  unfold persistStep
  dsimp only
  rw [if_pos hge]

lemma calcDeltas_reset (h : HandMotion)
    (hor : h.hand_pos = none ∨ h.prev_pos = none) :
    calcDeltas h = { h with dx := 0, dy := 0, smooth_dx := 0, smooth_dy := 0,
                            prev_pos := h.hand_pos } := by
  unfold calcDeltas
  rw [if_neg]
  rcases hor with h1 | h1 <;> simp [h1]

lemma calcDeltas_smooth (h : HandMotion)
    (h1 : h.hand_pos.isSome = true) (h2 : h.prev_pos.isSome = true) :
    calcDeltas h =
      { h with
          smooth_dx := DELTA_SMOOTHING * h.smooth_dx + (1 - DELTA_SMOOTHING) * rawDX h
          smooth_dy := DELTA_SMOOTHING * h.smooth_dy + (1 - DELTA_SMOOTHING) * rawDY h
          dx := DELTA_SMOOTHING * h.smooth_dx + (1 - DELTA_SMOOTHING) * rawDX h
          dy := DELTA_SMOOTHING * h.smooth_dy + (1 - DELTA_SMOOTHING) * rawDY h
          prev_pos := h.hand_pos } := by
  unfold calcDeltas
  rw [if_pos ⟨h1, h2⟩]

lemma rawDX_same (h : HandMotion) (p : ℚ × ℚ)
    (hc : h.hand_pos = some p) (hp : h.prev_pos = some p) : rawDX h = 0 := by
  unfold rawDX
  rw [hc, hp]
  norm_num [MAX_DELTA]

lemma rawDY_same (h : HandMotion) (p : ℚ × ℚ)
    (hc : h.hand_pos = some p) (hp : h.prev_pos = some p) : rawDY h = 0 := by
  unfold rawDY
  rw [hc, hp]
  norm_num [MAX_DELTA]

/-- One undetected frame inside the persistence window, starting from a
steady retained position: the raw deltas are 0 and the smoothed deltas are
halved. -/
lemma motionStep_window (h : HandMotion) (p : ℚ × ℚ)
    (hc : h.hand_pos = some p) (hp : h.prev_pos = some p)
    (hwin : h.lost_frames + 1 ≤ LOST_THRESHOLD) :
    motionStep h none =
      { h with lost_frames := h.lost_frames + 1
               dx := DELTA_SMOOTHING * h.smooth_dx
               dy := DELTA_SMOOTHING * h.smooth_dy
               smooth_dx := DELTA_SMOOTHING * h.smooth_dx
               smooth_dy := DELTA_SMOOTHING * h.smooth_dy } ∧
    rawDX (persistStep h none) = 0 ∧ rawDY (persistStep h none) = 0 := by
  have hk1 : persistStep h none = { h with lost_frames := h.lost_frames + 1 } :=
    persistStep_none_keep h hwin
  have hgc : ({ h with lost_frames := h.lost_frames + 1 } : HandMotion).hand_pos = some p := hc
  have hgp : ({ h with lost_frames := h.lost_frames + 1 } : HandMotion).prev_pos = some p := hp
  have hrx : rawDX ({ h with lost_frames := h.lost_frames + 1 } : HandMotion) = 0 :=
    rawDX_same _ p hgc hgp
  have hry : rawDY ({ h with lost_frames := h.lost_frames + 1 } : HandMotion) = 0 :=
    rawDY_same _ p hgc hgp
  refine ⟨?_, by rw [hk1]; exact hrx, by rw [hk1]; exact hry⟩
  unfold motionStep
  rw [hk1, calcDeltas_smooth _ (by rw [hgc]; rfl) (by rw [hgp]; rfl), hrx, hry]
  dsimp only
  rw [hc, ← hp]
  congr 1 <;> ring

/-! ## Claim C1 (corrected) -/

/-- A run in which the left hand is seen at (0,0), then at (1/100, 0), and is
then absent (undetected) for two consecutive frames. -/
def cexC1 : List (Option (ℚ × ℚ) × Option (ℚ × ℚ)) :=
  [(some (0, 0), none), (some (1/100, 0), none), (none, none), (none, none)]

/-- C1 counterexample: after the left hand is absent (undetected) for the two
final consecutive frames of `cexC1`, the published delta and the smoothed
delta are NOT 0.0 — the tracker's 15-frame persistence keeps the last
position alive, so `_calculate_deltas` keeps running its smoothing branch and
the smoothed delta merely decays (to 1/800 here) instead of resetting. -/
theorem claim_C1_counterexample :
    (runTracker HandTracker.init cexC1).left.dx ≠ 0 ∧
    (runTracker HandTracker.init cexC1).left.smooth_dx ≠ 0 := by
  norm_num [runTracker, cexC1, List.foldl, trackerStep, motionStep, persistStep,
    calcDeltas, rawDX, rawDY, HandTracker.init, HandMotion.init,
    DELTA_SMOOTHING, MAX_DELTA, LOST_THRESHOLD]

/-- C1 amended: both hands run the identical per-hand filter.  The deltas are
exactly 0.0 precisely when the stored position or the previous position is
absent — which, for a hand that was being tracked, only happens once it has
been undetected for more than LOST_THRESHOLD (15) consecutive frames.  During
the persistence window, an undetected hand's clamped raw deltas are 0 (the
retained position does not move) but the smoothed deltas are merely halved
(DELTA_SMOOTHING = 0.5) each frame, so after two consecutive undetected
frames they equal 1/4 of their prior values, not 0. -/
theorem claim_C1 :
    (∀ (t : HandTracker) (lobs robs : Option (ℚ × ℚ)),
       (trackerStep t lobs robs).left = motionStep t.left lobs ∧
       (trackerStep t lobs robs).right = motionStep t.right robs) ∧
    (∀ (h : HandMotion) (obs : Option (ℚ × ℚ)),
       (persistStep h obs).hand_pos = none ∨ h.prev_pos = none →
       (motionStep h obs).dx = 0 ∧ (motionStep h obs).dy = 0 ∧
       (motionStep h obs).smooth_dx = 0 ∧ (motionStep h obs).smooth_dy = 0) ∧
    (∀ h : HandMotion, LOST_THRESHOLD ≤ h.lost_frames →
       (motionStep h none).hand_pos = none ∧
       (motionStep h none).dx = 0 ∧ (motionStep h none).dy = 0 ∧
       (motionStep h none).smooth_dx = 0 ∧ (motionStep h none).smooth_dy = 0) ∧
    (∀ (h : HandMotion) (p : ℚ × ℚ), h.hand_pos = some p → h.prev_pos = some p →
       h.lost_frames + 2 ≤ LOST_THRESHOLD →
       rawDX (persistStep h none) = 0 ∧ rawDY (persistStep h none) = 0 ∧
       rawDX (persistStep (motionStep h none) none) = 0 ∧
       rawDY (persistStep (motionStep h none) none) = 0 ∧
       (motionStep (motionStep h none) none).smooth_dx =
         DELTA_SMOOTHING ^ 2 * h.smooth_dx ∧
       (motionStep (motionStep h none) none).smooth_dy =
         DELTA_SMOOTHING ^ 2 * h.smooth_dy) := by
  refine ⟨fun t lobs robs => ⟨rfl, rfl⟩, ?_, ?_, ?_⟩
  · intro h obs hor
    unfold motionStep
    have hor2 : (persistStep h obs).hand_pos = none ∨ (persistStep h obs).prev_pos = none := by
      rcases hor with h1 | h1
      · exact Or.inl h1
      · exact Or.inr (by rw [persistStep_prev]; exact h1)
    rw [calcDeltas_reset _ hor2]
    exact ⟨rfl, rfl, rfl, rfl⟩
  · intro h hlost
    have hclear := persistStep_none_clear h (by omega)
    unfold motionStep
    rw [hclear, calcDeltas_reset _ (Or.inl rfl)]
    exact ⟨rfl, rfl, rfl, rfl, rfl⟩
  · intro h p hc hp hwin
    obtain ⟨hm1, hr1, hr1y⟩ := motionStep_window h p hc hp (by omega)
    have hc2 : (motionStep h none).hand_pos = some p := by rw [hm1]; exact hc
    have hp2 : (motionStep h none).prev_pos = some p := by rw [hm1]; exact hp
    have hl2 : (motionStep h none).lost_frames = h.lost_frames + 1 := by rw [hm1]
    obtain ⟨hm2, hr2, hr2y⟩ :=
      motionStep_window (motionStep h none) p hc2 hp2 (by rw [hl2]; omega)
    refine ⟨hr1, hr1y, hr2, hr2y, ?_, ?_⟩
    · rw [hm2, hm1]
      dsimp only
      ring
    · rw [hm2, hm1]
      dsimp only
      ring

/-- Concrete witness state: a tracked hand with a steady position and a
nonzero smoothed delta. -/
def hmW : HandMotion :=
  { hand_pos := some (1/2, 1/2), prev_pos := some (1/2, 1/2),
    dx := 1/10, dy := -(1/10), smooth_dx := 1/10, smooth_dy := -(1/10),
    lost_frames := 0 }

/-- Concrete witness state: a hand already undetected for 15 frames. -/
def hmLost : HandMotion :=
  { hmW with lost_frames := 15 }

theorem claim_C1_witness :
    (rawDX (persistStep hmW none) = 0 ∧ rawDY (persistStep hmW none) = 0 ∧
     rawDX (persistStep (motionStep hmW none) none) = 0 ∧
     rawDY (persistStep (motionStep hmW none) none) = 0 ∧
     (motionStep (motionStep hmW none) none).smooth_dx =
       DELTA_SMOOTHING ^ 2 * hmW.smooth_dx ∧
     (motionStep (motionStep hmW none) none).smooth_dy =
       DELTA_SMOOTHING ^ 2 * hmW.smooth_dy) ∧
    ((motionStep hmLost none).hand_pos = none ∧
     (motionStep hmLost none).dx = 0 ∧ (motionStep hmLost none).dy = 0 ∧
     (motionStep hmLost none).smooth_dx = 0 ∧ (motionStep hmLost none).smooth_dy = 0) ∧
    ((motionStep HandMotion.init (some (1/4, 1/4))).dx = 0 ∧
     (motionStep HandMotion.init (some (1/4, 1/4))).dy = 0 ∧
     (motionStep HandMotion.init (some (1/4, 1/4))).smooth_dx = 0 ∧
     (motionStep HandMotion.init (some (1/4, 1/4))).smooth_dy = 0) :=
  ⟨claim_C1.2.2.2 hmW (1/2, 1/2) rfl rfl (by decide),
   claim_C1.2.2.1 hmLost (by decide),
   claim_C1.2.1 HandMotion.init (some (1/4, 1/4)) (Or.inr rfl)⟩

/-! ## Detector step lemmas -/

lemma detect_left_some (g : GestureDetector) (distFn : Landmark → Landmark → ℚ)
    (l : HandLandmarks) (r : Option HandLandmarks) :
    (g.detect distFn (some l) r).1.left_fist_frames =
      (if is_fist l then g.left_fist_frames + 1 else 0) ∧
    (g.detect distFn (some l) r).1.left_crossed_frames =
      (if is_crossed_fingers l then g.left_crossed_frames + 1 else 0) ∧
    (g.detect distFn (some l) r).2.left_fist =
      decide ((if is_fist l then g.left_fist_frames + 1 else 0) ≥ FIST_FRAMES_REQUIRED) ∧
    (g.detect distFn (some l) r).2.left_crossed_fingers =
      decide ((if is_crossed_fingers l then g.left_crossed_frames + 1 else 0) ≥
        CROSSED_FRAMES_REQUIRED) := by
  cases r <;> exact ⟨rfl, rfl, rfl, rfl⟩

lemma detect_left_none (g : GestureDetector) (distFn : Landmark → Landmark → ℚ)
    (r : Option HandLandmarks) :
    (g.detect distFn none r).1.left_fist_frames = 0 ∧
    (g.detect distFn none r).1.left_crossed_frames = 0 ∧
    (g.detect distFn none r).2.left_fist = false ∧
    (g.detect distFn none r).2.left_crossed_fingers = false := by
  cases r <;> exact ⟨rfl, rfl, rfl, rfl⟩

lemma detect_right_some (g : GestureDetector) (distFn : Landmark → Landmark → ℚ)
    (l : Option HandLandmarks) (r : HandLandmarks) :
    (g.detect distFn l (some r)).1.right_fist_frames =
      (if is_fist r then g.right_fist_frames + 1 else 0) ∧
    (g.detect distFn l (some r)).1.right_crossed_frames =
      (if is_crossed_fingers r then g.right_crossed_frames + 1 else 0) ∧
    (g.detect distFn l (some r)).2.right_fist =
      decide ((if is_fist r then g.right_fist_frames + 1 else 0) ≥ FIST_FRAMES_REQUIRED) ∧
    (g.detect distFn l (some r)).2.crossed_fingers =
      decide ((if is_crossed_fingers r then g.right_crossed_frames + 1 else 0) ≥
        CROSSED_FRAMES_REQUIRED) := by
  cases l <;> exact ⟨rfl, rfl, rfl, rfl⟩

lemma detect_right_none (g : GestureDetector) (distFn : Landmark → Landmark → ℚ)
    (l : Option HandLandmarks) :
    (g.detect distFn l none).1.right_fist_frames = 0 ∧
    (g.detect distFn l none).1.right_crossed_frames = 0 ∧
    (g.detect distFn l none).2.right_fist = false ∧
    (g.detect distFn l none).2.crossed_fingers = false := by
  cases l <;> exact ⟨rfl, rfl, rfl, rfl⟩

lemma runDetect_cons (distFn : Landmark → Landmark → ℚ)
    (p : GestureDetector × GestureState)
    (i : Option HandLandmarks × Option HandLandmarks)
    (l : List (Option HandLandmarks × Option HandLandmarks)) :
    runDetect distFn p (i :: l) = runDetect distFn (p.1.detect distFn i.1 i.2) l := rfl

/-- Running N frames of a raw-true left fist: the counter advances by N and
(for N ≥ 1) the debounced flag of the last frame is exactly the threshold
test on the accumulated count. -/
lemma runDetect_left_fist (distFn : Landmark → Landmark → ℚ)
    (h : HandLandmarks) (hf : is_fist h = true) :
    ∀ (N : Nat) (g : GestureDetector) (gs : GestureState),
      (runDetect distFn (g, gs) (List.replicate N (some h, none))).1.left_fist_frames =
        g.left_fist_frames + N ∧
      (0 < N →
        (runDetect distFn (g, gs) (List.replicate N (some h, none))).2.left_fist =
          decide (FIST_FRAMES_REQUIRED ≤ g.left_fist_frames + N)) := by
  intro N
  induction N with
  | zero => exact fun g gs => ⟨rfl, by omega⟩
  | succ n ih =>
      intro g gs
      rw [List.replicate_succ, runDetect_cons]
      have hgd : (g.detect distFn (some h) none).1.left_fist_frames =
          g.left_fist_frames + 1 := by
        rw [(detect_left_some g distFn h none).1, hf]
        simp
      have hflag : (g.detect distFn (some h) none).2.left_fist =
          decide (FIST_FRAMES_REQUIRED ≤ g.left_fist_frames + 1) := by
        rw [(detect_left_some g distFn h none).2.2.1, hf]
        simp [ge_iff_le]
      obtain ⟨ihc, ihf⟩ :=
        ih (g.detect distFn (some h) none).1 (g.detect distFn (some h) none).2
      rw [Prod.mk.eta] at ihc ihf
      constructor
      · rw [ihc, hgd]
        omega
      · intro _
        rcases Nat.eq_zero_or_pos n with hn | hn
        · subst hn
          show (g.detect distFn (some h) none).2.left_fist = _
          rw [hflag]
        · rw [ihf hn, hgd]
          have he : g.left_fist_frames + 1 + n = g.left_fist_frames + (n + 1) := by omega
          rw [he]

/-- Right-hand analogue of `runDetect_left_fist`. -/
lemma runDetect_right_fist (distFn : Landmark → Landmark → ℚ)
    (h : HandLandmarks) (hf : is_fist h = true) :
    ∀ (N : Nat) (g : GestureDetector) (gs : GestureState),
      (runDetect distFn (g, gs) (List.replicate N (none, some h))).1.right_fist_frames =
        g.right_fist_frames + N ∧
      (0 < N →
        (runDetect distFn (g, gs) (List.replicate N (none, some h))).2.right_fist =
          decide (FIST_FRAMES_REQUIRED ≤ g.right_fist_frames + N)) := by
  intro N
  induction N with
  | zero => exact fun g gs => ⟨rfl, by omega⟩
  | succ n ih =>
      intro g gs
      rw [List.replicate_succ, runDetect_cons]
      have hgd : (g.detect distFn none (some h)).1.right_fist_frames =
          g.right_fist_frames + 1 := by
        rw [(detect_right_some g distFn none h).1, hf]
        simp
      have hflag : (g.detect distFn none (some h)).2.right_fist =
          decide (FIST_FRAMES_REQUIRED ≤ g.right_fist_frames + 1) := by
        rw [(detect_right_some g distFn none h).2.2.1, hf]
        simp [ge_iff_le]
      obtain ⟨ihc, ihf⟩ :=
        ih (g.detect distFn none (some h)).1 (g.detect distFn none (some h)).2
      rw [Prod.mk.eta] at ihc ihf
      constructor
      · rw [ihc, hgd]
        omega
      · intro _
        rcases Nat.eq_zero_or_pos n with hn | hn
        · subst hn
          show (g.detect distFn none (some h)).2.right_fist = _
          rw [hflag]
        · rw [ihf hn, hgd]
          have he : g.right_fist_frames + 1 + n = g.right_fist_frames + (n + 1) := by omega
          rw [he]

/-- Running N frames of raw-true left crossed fingers. -/
lemma runDetect_left_crossed (distFn : Landmark → Landmark → ℚ)
    (h : HandLandmarks) (hf : is_crossed_fingers h = true) :
    ∀ (N : Nat) (g : GestureDetector) (gs : GestureState),
      (runDetect distFn (g, gs) (List.replicate N (some h, none))).1.left_crossed_frames =
        g.left_crossed_frames + N ∧
      (0 < N →
        (runDetect distFn (g, gs) (List.replicate N (some h, none))).2.left_crossed_fingers =
          decide (CROSSED_FRAMES_REQUIRED ≤ g.left_crossed_frames + N)) := by
  intro N
  induction N with
  | zero => exact fun g gs => ⟨rfl, by omega⟩
  | succ n ih =>
      intro g gs
      rw [List.replicate_succ, runDetect_cons]
      have hgd : (g.detect distFn (some h) none).1.left_crossed_frames =
          g.left_crossed_frames + 1 := by
        rw [(detect_left_some g distFn h none).2.1, hf]
        simp
      have hflag : (g.detect distFn (some h) none).2.left_crossed_fingers =
          decide (CROSSED_FRAMES_REQUIRED ≤ g.left_crossed_frames + 1) := by
        rw [(detect_left_some g distFn h none).2.2.2, hf]
        simp [ge_iff_le]
      obtain ⟨ihc, ihf⟩ :=
        ih (g.detect distFn (some h) none).1 (g.detect distFn (some h) none).2
      rw [Prod.mk.eta] at ihc ihf
      constructor
      · rw [ihc, hgd]
        omega
      · intro _
        rcases Nat.eq_zero_or_pos n with hn | hn
        · subst hn
          show (g.detect distFn (some h) none).2.left_crossed_fingers = _
          rw [hflag]
        · rw [ihf hn, hgd]
          have he : g.left_crossed_frames + 1 + n = g.left_crossed_frames + (n + 1) := by omega
          rw [he]

/-- Running N frames of raw-true right crossed fingers. -/
lemma runDetect_right_crossed (distFn : Landmark → Landmark → ℚ)
    (h : HandLandmarks) (hf : is_crossed_fingers h = true) :
    ∀ (N : Nat) (g : GestureDetector) (gs : GestureState),
      (runDetect distFn (g, gs) (List.replicate N (none, some h))).1.right_crossed_frames =
        g.right_crossed_frames + N ∧
      (0 < N →
        (runDetect distFn (g, gs) (List.replicate N (none, some h))).2.crossed_fingers =
          decide (CROSSED_FRAMES_REQUIRED ≤ g.right_crossed_frames + N)) := by
  intro N
  induction N with
  | zero => exact fun g gs => ⟨rfl, by omega⟩
  | succ n ih =>
      intro g gs
      rw [List.replicate_succ, runDetect_cons]
      have hgd : (g.detect distFn none (some h)).1.right_crossed_frames =
          g.right_crossed_frames + 1 := by
        rw [(detect_right_some g distFn none h).2.1, hf]
        simp
      have hflag : (g.detect distFn none (some h)).2.crossed_fingers =
          decide (CROSSED_FRAMES_REQUIRED ≤ g.right_crossed_frames + 1) := by
        rw [(detect_right_some g distFn none h).2.2.2, hf]
        simp [ge_iff_le]
      obtain ⟨ihc, ihf⟩ :=
        ih (g.detect distFn none (some h)).1 (g.detect distFn none (some h)).2
      rw [Prod.mk.eta] at ihc ihf
      constructor
      · rw [ihc, hgd]
        omega
      · intro _
        rcases Nat.eq_zero_or_pos n with hn | hn
        · subst hn
          show (g.detect distFn none (some h)).2.crossed_fingers = _
          rw [hflag]
        · rw [ihf hn, hgd]
          have he : g.right_crossed_frames + 1 + n = g.right_crossed_frames + (n + 1) := by omega
          rw [he]

/-! ## Claim C3 -/

/-- C3: debounce behaviour of `GestureDetector.detect`.  For each debounced
gesture (fist, threshold 3; crossed fingers, threshold 5; per hand), running
N consecutive raw-true frames from a reset counter leaves the counter at
exactly N, and the flag reported on the Nth frame is precisely the threshold
test `threshold ≤ N` — so every prefix of length k < threshold reports false
(instantiate N := k) and every run of length N ≥ threshold reports true.  A
single raw-false frame with the hand present resets the counter to exactly 0,
and a frame with the hand absent resets both of that hand's counters to 0. -/
theorem claim_C3 (distFn : Landmark → Landmark → ℚ) :
    (∀ (h : HandLandmarks) (N : Nat) (g : GestureDetector) (gs : GestureState),
      is_fist h = true → g.left_fist_frames = 0 →
      (runDetect distFn (g, gs) (List.replicate N (some h, none))).1.left_fist_frames = N ∧
      (0 < N →
        (runDetect distFn (g, gs) (List.replicate N (some h, none))).2.left_fist =
          decide (FIST_FRAMES_REQUIRED ≤ N))) ∧
    (∀ (h : HandLandmarks) (N : Nat) (g : GestureDetector) (gs : GestureState),
      is_fist h = true → g.right_fist_frames = 0 →
      (runDetect distFn (g, gs) (List.replicate N (none, some h))).1.right_fist_frames = N ∧
      (0 < N →
        (runDetect distFn (g, gs) (List.replicate N (none, some h))).2.right_fist =
          decide (FIST_FRAMES_REQUIRED ≤ N))) ∧
    (∀ (h : HandLandmarks) (N : Nat) (g : GestureDetector) (gs : GestureState),
      is_crossed_fingers h = true → g.left_crossed_frames = 0 →
      (runDetect distFn (g, gs) (List.replicate N (some h, none))).1.left_crossed_frames = N ∧
      (0 < N →
        (runDetect distFn (g, gs) (List.replicate N (some h, none))).2.left_crossed_fingers =
          decide (CROSSED_FRAMES_REQUIRED ≤ N))) ∧
    (∀ (h : HandLandmarks) (N : Nat) (g : GestureDetector) (gs : GestureState),
      is_crossed_fingers h = true → g.right_crossed_frames = 0 →
      (runDetect distFn (g, gs) (List.replicate N (none, some h))).1.right_crossed_frames = N ∧
      (0 < N →
        (runDetect distFn (g, gs) (List.replicate N (none, some h))).2.crossed_fingers =
          decide (CROSSED_FRAMES_REQUIRED ≤ N))) ∧
    (∀ (h : HandLandmarks) (g : GestureDetector) (r : Option HandLandmarks),
      is_fist h = false → (g.detect distFn (some h) r).1.left_fist_frames = 0) ∧
    (∀ (h : HandLandmarks) (g : GestureDetector) (l : Option HandLandmarks),
      is_fist h = false → (g.detect distFn l (some h)).1.right_fist_frames = 0) ∧
    (∀ (h : HandLandmarks) (g : GestureDetector) (r : Option HandLandmarks),
      is_crossed_fingers h = false →
      (g.detect distFn (some h) r).1.left_crossed_frames = 0) ∧
    (∀ (h : HandLandmarks) (g : GestureDetector) (l : Option HandLandmarks),
      is_crossed_fingers h = false →
      (g.detect distFn l (some h)).1.right_crossed_frames = 0) ∧
    (∀ (g : GestureDetector) (r : Option HandLandmarks),
      (g.detect distFn none r).1.left_fist_frames = 0 ∧
      (g.detect distFn none r).1.left_crossed_frames = 0) ∧
    (∀ (g : GestureDetector) (l : Option HandLandmarks),
      (g.detect distFn l none).1.right_fist_frames = 0 ∧
      (g.detect distFn l none).1.right_crossed_frames = 0) := by
  refine ⟨?_, ?_, ?_, ?_, ?_, ?_, ?_, ?_, ?_, ?_⟩
  · intro h N g gs hf h0
    obtain ⟨hc, hfl⟩ := runDetect_left_fist distFn h hf N g gs
    rw [h0] at hc hfl
    exact ⟨by rw [hc]; omega, fun hN => by rw [hfl hN]; norm_num⟩
  · intro h N g gs hf h0
    obtain ⟨hc, hfl⟩ := runDetect_right_fist distFn h hf N g gs
    rw [h0] at hc hfl
    exact ⟨by rw [hc]; omega, fun hN => by rw [hfl hN]; norm_num⟩
  · intro h N g gs hf h0
    obtain ⟨hc, hfl⟩ := runDetect_left_crossed distFn h hf N g gs
    rw [h0] at hc hfl
    exact ⟨by rw [hc]; omega, fun hN => by rw [hfl hN]; norm_num⟩
  · intro h N g gs hf h0
    obtain ⟨hc, hfl⟩ := runDetect_right_crossed distFn h hf N g gs
    rw [h0] at hc hfl
    exact ⟨by rw [hc]; omega, fun hN => by rw [hfl hN]; norm_num⟩
  · intro h g r hf
    rw [(detect_left_some g distFn h r).1, hf]
    simp
  · intro h g l hf
    rw [(detect_right_some g distFn l h).1, hf]
    simp
  · intro h g r hf
    rw [(detect_left_some g distFn h r).2.1, hf]
    simp
  · intro h g l hf
    rw [(detect_right_some g distFn l h).2.1, hf]
    simp
  · intro g r
    exact ⟨(detect_left_none g distFn r).1, (detect_left_none g distFn r).2.1⟩
  · intro g l
    exact ⟨(detect_right_none g distFn l).1, (detect_right_none g distFn l).2.1⟩

/-- Concrete landmarks forming a crossed-fingers pose: index and middle
extended with their tips crossed over in x, ring and pinky curled. -/
def crossedHand : HandLandmarks :=
  { wrist := ⟨0, 0⟩
    index_mcp := ⟨-(1/10), 3/10⟩, index_tip := ⟨1/20, 3/5⟩
    middle_mcp := ⟨1/10, 3/10⟩, middle_tip := ⟨-(1/20), 3/5⟩
    ring_mcp := ⟨2/10, 3/10⟩, ring_tip := ⟨2/10, 1/10⟩
    pinky_mcp := ⟨3/10, 3/10⟩, pinky_tip := ⟨3/10, 1/10⟩ }

theorem claim_C3_witness :
    ((runDetect sqDist (GestureDetector.init, emptyState)
        (List.replicate 3 (some fistHand, none))).1.left_fist_frames = 3 ∧
     (0 < 3 →
       (runDetect sqDist (GestureDetector.init, emptyState)
          (List.replicate 3 (some fistHand, none))).2.left_fist =
         decide (FIST_FRAMES_REQUIRED ≤ 3))) ∧
    ((runDetect sqDist (GestureDetector.init, emptyState)
        (List.replicate 5 (none, some crossedHand))).1.right_crossed_frames = 5 ∧
     (0 < 5 →
       (runDetect sqDist (GestureDetector.init, emptyState)
          (List.replicate 5 (none, some crossedHand))).2.crossed_fingers =
         decide (CROSSED_FRAMES_REQUIRED ≤ 5))) ∧
    (GestureDetector.init.detect sqDist (some unfistHand) none).1.left_fist_frames = 0 ∧
    ((GestureDetector.init.detect sqDist none none).1.left_fist_frames = 0 ∧
     (GestureDetector.init.detect sqDist none none).1.left_crossed_frames = 0) :=
  ⟨(claim_C3 sqDist).1 fistHand 3 GestureDetector.init emptyState
      (by norm_num [is_fist, curledCount, fingerCurled, sqDist, FIST_CURL, fistHand]) rfl,
   (claim_C3 sqDist).2.2.2.1 crossedHand 5 GestureDetector.init emptyState
      (by norm_num [is_crossed_fingers, fingerExtended, sqDist,
            CROSSED_FINGER_THRESHOLD, crossedHand, abs_lt]) rfl,
   (claim_C3 sqDist).2.2.2.2.1 unfistHand GestureDetector.init none
      (by norm_num [is_fist, curledCount, fingerCurled, sqDist, FIST_CURL,
            unfistHand, fistHand]),
   (claim_C3 sqDist).2.2.2.2.2.2.2.2.1 GestureDetector.init none⟩

/-! ## TechniqueManager helper lemmas -/

lemma update_exploding (m : TechniqueManager) (gs : GestureState) (tr : TrackerDeltas)
    (jit : Jitter) (he : m.exploding = true) :
    m.update gs tr jit = m.explosionTick := by
  simp [TechniqueManager.update, he]

lemma update_blending (m : TechniqueManager) (gs : GestureState) (tr : TrackerDeltas)
    (jit : Jitter) (he : m.exploding = false) (hb : m.blending = true) :
    m.update gs tr jit = m.blendTick jit := by
  simp [TechniqueManager.update, he, hb]

lemma update_main (m : TechniqueManager) (gs : GestureState) (tr : TrackerDeltas)
    (jit : Jitter) (he : m.exploding = false) (hb : m.blending = false) :
    m.update gs tr jit =
      TechniqueManager.animUpdate
        (TechniqueManager.trackEdges
          (TechniqueManager.purpleActiveRegion
            (TechniqueManager.purpleTrigger
              (TechniqueManager.redRegion
                (TechniqueManager.blueRegion m gs tr) gs tr)) gs tr) gs) := by
  simp [TechniqueManager.update, he, hb]

lemma explosionTick_rest (m : TechniqueManager) :
    m.explosionTick.blue = m.blue ∧ m.explosionTick.red = m.red ∧
    m.explosionTick.blending = m.blending ∧
    m.explosionTick.blend_timer = m.blend_timer ∧
    m.explosionTick.was_namaste = m.was_namaste ∧
    m.explosionTick.was_apart = m.was_apart ∧
    m.explosionTick.was_left_crossed = m.was_left_crossed ∧
    m.explosionTick.was_right_crossed = m.was_right_crossed ∧
    m.explosionTick.explosion_posx = m.explosion_posx ∧
    m.explosionTick.explosion_posy = m.explosion_posy := by
  unfold TechniqueManager.explosionTick
  dsimp only
  split <;> exact ⟨rfl, rfl, rfl, rfl, rfl, rfl, rfl, rfl, rfl, rfl⟩

lemma blendTick_rest (m : TechniqueManager) (jit : Jitter) :
    (m.blendTick jit).exploding = m.exploding ∧
    (m.blendTick jit).explosion_timer = m.explosion_timer ∧
    (m.blendTick jit).was_namaste = m.was_namaste ∧
    (m.blendTick jit).was_apart = m.was_apart ∧
    (m.blendTick jit).was_left_crossed = m.was_left_crossed ∧
    (m.blendTick jit).was_right_crossed = m.was_right_crossed ∧
    (m.blendTick jit).blend_timer = m.blend_timer + 1 := by
  unfold TechniqueManager.blendTick
  dsimp only
  split <;> split <;> exact ⟨rfl, rfl, rfl, rfl, rfl, rfl, rfl⟩

/-! ## Claim C2 (corrected) -/

/-- A manager mid-explosion, with all edge-state booleans false. -/
def mC2 : TechniqueManager := { TechniqueManager.init with exploding := true }

/-- A gesture state whose namaste flag is true. -/
def gsC2 : GestureState := { emptyState with namaste := true }

/-- C2 counterexample: on a tick during which the explosion lock-out is
active, `update` returns before the "Track edge states" lines, so
`was_namaste` keeps its old value (false) instead of being updated to the
consumed gesture state's namaste flag (true). -/
theorem claim_C2_counterexample :
    ¬((mC2.update gsC2 TrackerDeltas.zero Jitter.zero).was_namaste = gsC2.namaste) := by
  rw [update_exploding mC2 gsC2 TrackerDeltas.zero Jitter.zero rfl,
      (explosionTick_rest mC2).2.2.2.2.1]
  decide

/-- C2 amended: the edge-detection booleans `was_namaste`, `was_apart`,
`was_left_crossed` and `was_right_crossed` are updated at the end of the tick
to the corresponding flags of the consumed `GestureState` exactly on the
ticks on which neither the explosion lock-out nor the blend lock-out is
active; on lock-out ticks `update` returns early and all four booleans
retain their previous values. -/
theorem claim_C2 (m : TechniqueManager) (gs : GestureState) (tr : TrackerDeltas)
    (jit : Jitter) :
    (m.exploding = false → m.blending = false →
      (m.update gs tr jit).was_namaste = gs.namaste ∧
      (m.update gs tr jit).was_apart = gs.hands_apart ∧
      (m.update gs tr jit).was_left_crossed = gs.left_crossed_fingers ∧
      (m.update gs tr jit).was_right_crossed = gs.crossed_fingers) ∧
    (m.exploding = true ∨ m.blending = true →
      (m.update gs tr jit).was_namaste = m.was_namaste ∧
      (m.update gs tr jit).was_apart = m.was_apart ∧
      (m.update gs tr jit).was_left_crossed = m.was_left_crossed ∧
      (m.update gs tr jit).was_right_crossed = m.was_right_crossed) := by
  constructor
  · intro he hb
    rw [update_main m gs tr jit he hb]
    exact ⟨rfl, rfl, rfl, rfl⟩
  · intro hl
    cases he : m.exploding with
    | true =>
        rw [update_exploding m gs tr jit he]
        obtain ⟨_, _, _, _, h5, h6, h7, h8, _, _⟩ := explosionTick_rest m
        exact ⟨h5, h6, h7, h8⟩
    | false =>
        have hb : m.blending = true := by
          rcases hl with h | h
          · rw [he] at h; cases h
          · exact h
        rw [update_blending m gs tr jit he hb]
        obtain ⟨_, _, h3, h4, h5, h6, _⟩ := blendTick_rest m jit
        exact ⟨h3, h4, h5, h6⟩

theorem claim_C2_witness :
    ((TechniqueManager.init.update gsC2 TrackerDeltas.zero Jitter.zero).was_namaste =
       gsC2.namaste ∧
     (TechniqueManager.init.update gsC2 TrackerDeltas.zero Jitter.zero).was_apart =
       gsC2.hands_apart ∧
     (TechniqueManager.init.update gsC2 TrackerDeltas.zero Jitter.zero).was_left_crossed =
       gsC2.left_crossed_fingers ∧
     (TechniqueManager.init.update gsC2 TrackerDeltas.zero Jitter.zero).was_right_crossed =
       gsC2.crossed_fingers) ∧
    ((mC2.update gsC2 TrackerDeltas.zero Jitter.zero).was_namaste = mC2.was_namaste ∧
     (mC2.update gsC2 TrackerDeltas.zero Jitter.zero).was_apart = mC2.was_apart ∧
     (mC2.update gsC2 TrackerDeltas.zero Jitter.zero).was_left_crossed =
       mC2.was_left_crossed ∧
     (mC2.update gsC2 TrackerDeltas.zero Jitter.zero).was_right_crossed =
       mC2.was_right_crossed) :=
  ⟨(claim_C2 TechniqueManager.init gsC2 TrackerDeltas.zero Jitter.zero).1 rfl rfl,
   (claim_C2 mC2 gsC2 TrackerDeltas.zero Jitter.zero).2 (Or.inl rfl)⟩

lemma redRegion_blue (m : TechniqueManager) (gs : GestureState) (tr : TrackerDeltas) :
    (m.redRegion gs tr).blue = m.blue := rfl

lemma blueRegion_red (m : TechniqueManager) (gs : GestureState) (tr : TrackerDeltas) :
    (m.blueRegion gs tr).red = m.red := rfl

lemma purpleTrigger_blue (m : TechniqueManager) : m.purpleTrigger.blue = m.blue := by
  unfold TechniqueManager.purpleTrigger
  split <;> rfl

lemma purpleTrigger_red (m : TechniqueManager) : m.purpleTrigger.red = m.red := by
  unfold TechniqueManager.purpleTrigger
  split <;> rfl

lemma purpleTrigger_exploding (m : TechniqueManager) :
    m.purpleTrigger.exploding = m.exploding := by
  unfold TechniqueManager.purpleTrigger
  split <;> rfl

lemma purpleActiveRegion_blue (m : TechniqueManager) (gs : GestureState)
    (tr : TrackerDeltas) : (m.purpleActiveRegion gs tr).blue = m.blue := by
  unfold TechniqueManager.purpleActiveRegion
  split
  · dsimp only
    split <;> rfl
  · rfl

lemma purpleActiveRegion_red (m : TechniqueManager) (gs : GestureState)
    (tr : TrackerDeltas) : (m.purpleActiveRegion gs tr).red = m.red := by
  unfold TechniqueManager.purpleActiveRegion
  split
  · dsimp only
    split <;> rfl
  · rfl

lemma purpleActiveRegion_blending (m : TechniqueManager) (gs : GestureState)
    (tr : TrackerDeltas) : (m.purpleActiveRegion gs tr).blending = m.blending := by
  unfold TechniqueManager.purpleActiveRegion
  split
  · dsimp only
    split <;> rfl
  · rfl

lemma purpleActiveRegion_blend_timer (m : TechniqueManager) (gs : GestureState)
    (tr : TrackerDeltas) : (m.purpleActiveRegion gs tr).blend_timer = m.blend_timer := by
  unfold TechniqueManager.purpleActiveRegion
  split
  · dsimp only
    split <;> rfl
  · rfl

lemma purpleActiveRegion_not_active (m : TechniqueManager) (gs : GestureState)
    (tr : TrackerDeltas) (h : m.purple.state ≠ EnergyState.ACTIVE) :
    m.purpleActiveRegion gs tr = m := by
  unfold TechniqueManager.purpleActiveRegion
  rw [if_neg h]

lemma purpleTrigger_not_inactive (m : TechniqueManager)
    (h : m.purple.state ≠ EnergyState.INACTIVE) : m.purpleTrigger = m := by
  unfold TechniqueManager.purpleTrigger
  rw [if_neg]
  intro hc
  exact h hc.2.2.1

lemma purpleTrigger_blue_not_active (m : TechniqueManager)
    (h : m.blue.state ≠ EnergyState.ACTIVE) : m.purpleTrigger = m := by
  unfold TechniqueManager.purpleTrigger
  rw [if_neg]
  intro hc
  exact h hc.1

lemma blueRegion_spawn (m : TechniqueManager) (gs : GestureState) (tr : TrackerDeltas)
    (h1 : m.blue.state = EnergyState.INACTIVE) (h2 : gs.left_crossed_fingers = true)
    (h3 : m.was_left_crossed = false) (h4 : m.purple.state ≠ EnergyState.ACTIVE) :
    (m.blueRegion gs tr).blue = m.blue.spawn 640 360 := by
  show (if m.blue.state = EnergyState.INACTIVE then _ else _) = _
  rw [if_pos h1, if_pos ⟨h2, h3, h4⟩, fdiv_cw, fdiv_ch]

lemma redRegion_spawn (m : TechniqueManager) (gs : GestureState) (tr : TrackerDeltas)
    (h1 : m.red.state = EnergyState.INACTIVE) (h2 : gs.hands_apart = true)
    (h3 : m.was_apart = false) (h4 : ¬(m.purple.state = EnergyState.ACTIVE)) :
    (m.redRegion gs tr).red = m.red.spawn 640 360 := by
  show (if m.red.state = EnergyState.INACTIVE then _ else _) = _
  rw [if_pos h1, if_pos ⟨h2, h3, h4⟩, fdiv_cw, fdiv_ch]

/-! ## Claim C10 -/

/-- C10: whenever Blue (respectively Red) is spawned by its gesture-triggered
spawn region — left crossed-fingers rising edge with Purple not Active for
Blue, hands-apart rising edge with Purple not Active for Red — the entity
enters SPAWNING at the canvas center (640, 360) = (CANVAS_WIDTH // 2,
CANVAS_HEIGHT // 2). -/
theorem claim_C10 (m : TechniqueManager) (gs : GestureState) (tr : TrackerDeltas)
    (jit : Jitter) (he : m.exploding = false) (hb : m.blending = false) :
    (m.blue.state = EnergyState.INACTIVE → gs.left_crossed_fingers = true →
      m.was_left_crossed = false → m.purple.state ≠ EnergyState.ACTIVE →
      (m.update gs tr jit).blue.state = EnergyState.SPAWNING ∧
      (m.update gs tr jit).blue.posx = 640 ∧ (m.update gs tr jit).blue.posy = 360) ∧
    (m.red.state = EnergyState.INACTIVE → gs.hands_apart = true →
      m.was_apart = false → m.purple.state ≠ EnergyState.ACTIVE →
      (m.update gs tr jit).red.state = EnergyState.SPAWNING ∧
      (m.update gs tr jit).red.posx = 640 ∧ (m.update gs tr jit).red.posy = 360) := by
  constructor
  · intro h1 h2 h3 h4
    have hkey : (m.update gs tr jit).blue = (m.blue.spawn 640 360).update := by
      rw [update_main m gs tr jit he hb]
      show (TechniqueManager.purpleActiveRegion _ gs tr).blue.update = _
      rw [purpleActiveRegion_blue, purpleTrigger_blue, redRegion_blue,
          blueRegion_spawn m gs tr h1 h2 h3 h4]
    rw [hkey, CursedEnergy.update_state, CursedEnergy.update_posx, CursedEnergy.update_posy]
    exact ⟨rfl, rfl, rfl⟩
  · intro h1 h2 h3 h4
    have hkey : (m.update gs tr jit).red = (m.red.spawn 640 360).update := by
      rw [update_main m gs tr jit he hb]
      show (TechniqueManager.purpleActiveRegion _ gs tr).red.update = _
      rw [purpleActiveRegion_red, purpleTrigger_red]
      exact congrArg CursedEnergy.update
        (redRegion_spawn (m.blueRegion gs tr) gs tr h1 h2 h3 h4)
    rw [hkey, CursedEnergy.update_state, CursedEnergy.update_posx, CursedEnergy.update_posy]
    exact ⟨rfl, rfl, rfl⟩

/-- A manager with everything idle, a false left-crossed edge state, used to
witness the spawn claims. -/
def mC10 : TechniqueManager := TechniqueManager.init

/-- A gesture state raising both spawn edges at once. -/
def gsC10 : GestureState :=
  { emptyState with left_crossed_fingers := true, hands_apart := true }

theorem claim_C10_witness :
    ((mC10.update gsC10 TrackerDeltas.zero Jitter.zero).blue.state =
       EnergyState.SPAWNING ∧
     (mC10.update gsC10 TrackerDeltas.zero Jitter.zero).blue.posx = 640 ∧
     (mC10.update gsC10 TrackerDeltas.zero Jitter.zero).blue.posy = 360) ∧
    ((mC10.update gsC10 TrackerDeltas.zero Jitter.zero).red.state =
       EnergyState.SPAWNING ∧
     (mC10.update gsC10 TrackerDeltas.zero Jitter.zero).red.posx = 640 ∧
     (mC10.update gsC10 TrackerDeltas.zero Jitter.zero).red.posy = 360) :=
  ⟨(claim_C10 mC10 gsC10 TrackerDeltas.zero Jitter.zero rfl rfl).1 rfl rfl rfl
      (by decide),
   (claim_C10 mC10 gsC10 TrackerDeltas.zero Jitter.zero rfl rfl).2 rfl rfl rfl
      (by decide)⟩

lemma redRegion_spawning (m : TechniqueManager) (gs : GestureState) (tr : TrackerDeltas)
    (h1 : m.red.state = EnergyState.SPAWNING) :
    (m.redRegion gs tr).red =
      (let dist := gs.hand_distance
       let r := if dist ≥ 0 then
           { m.red with scale := m.red.scale +
               (max 0 (min 1 ((dist - NAMASTE_THRESHOLD) /
                  (APART_THRESHOLD - NAMASTE_THRESHOLD))) - m.red.scale) * (15/100) }
         else { m.red with scale := m.red.scale + SPAWN_SCALE_SPEED }
       let r2 := if r.scale ≥ (95/100 : ℚ) then r.activate else r
       if dist ≥ 0 ∧ dist < NAMASTE_THRESHOLD then r2.dismiss else r2) := by
  show (if m.red.state = EnergyState.INACTIVE then _ else _) = _
  rw [if_neg (by rw [h1]; intro hc; cases hc), if_pos h1]

/-! ## Claim C7 -/

/-- C7: while Red is SPAWNING (and no lock-out is active): if the hand
distance is available (`dist ≥ 0`), Red's scale moves 15% of the way toward
the target `clamp((dist − 0.14) / (0.45 − 0.14), 0, 1)`, otherwise it grows
by the fixed increment 0.04; Red activates (scale 1) once the new scale is ≥
0.95; and if the distance is available and below the namaste threshold 0.14,
Red is dismissed back to INACTIVE with scale 0 (this cancellation runs last
and therefore wins even on a tick on which the activation test also fired). -/
theorem claim_C7 (m : TechniqueManager) (gs : GestureState) (tr : TrackerDeltas)
    (jit : Jitter) (he : m.exploding = false) (hb : m.blending = false)
    (h1 : m.red.state = EnergyState.SPAWNING) :
    (gs.hand_distance ≥ 0 ∧ gs.hand_distance < NAMASTE_THRESHOLD →
      (m.update gs tr jit).red.state = EnergyState.INACTIVE ∧
      (m.update gs tr jit).red.scale = 0) ∧
    (¬(gs.hand_distance ≥ 0 ∧ gs.hand_distance < NAMASTE_THRESHOLD) →
      (if gs.hand_distance ≥ 0 then
          m.red.scale + (max 0 (min 1 ((gs.hand_distance - NAMASTE_THRESHOLD) /
              (APART_THRESHOLD - NAMASTE_THRESHOLD))) - m.red.scale) * (15/100)
        else m.red.scale + SPAWN_SCALE_SPEED) ≥ 95/100 →
      (m.update gs tr jit).red.state = EnergyState.ACTIVE ∧
      (m.update gs tr jit).red.scale = 1) ∧
    (¬(gs.hand_distance ≥ 0 ∧ gs.hand_distance < NAMASTE_THRESHOLD) →
      ¬((if gs.hand_distance ≥ 0 then
          m.red.scale + (max 0 (min 1 ((gs.hand_distance - NAMASTE_THRESHOLD) /
              (APART_THRESHOLD - NAMASTE_THRESHOLD))) - m.red.scale) * (15/100)
        else m.red.scale + SPAWN_SCALE_SPEED) ≥ 95/100) →
      (m.update gs tr jit).red.state = EnergyState.SPAWNING ∧
      (m.update gs tr jit).red.scale =
        (if gs.hand_distance ≥ 0 then
          m.red.scale + (max 0 (min 1 ((gs.hand_distance - NAMASTE_THRESHOLD) /
              (APART_THRESHOLD - NAMASTE_THRESHOLD))) - m.red.scale) * (15/100)
        else m.red.scale + SPAWN_SCALE_SPEED)) := by
  have hkey : (m.update gs tr jit).red =
      (let dist := gs.hand_distance
       let r := if dist ≥ 0 then
           { m.red with scale := m.red.scale +
               (max 0 (min 1 ((dist - NAMASTE_THRESHOLD) /
                  (APART_THRESHOLD - NAMASTE_THRESHOLD))) - m.red.scale) * (15/100) }
         else { m.red with scale := m.red.scale + SPAWN_SCALE_SPEED }
       let r2 := if r.scale ≥ (95/100 : ℚ) then r.activate else r
       if dist ≥ 0 ∧ dist < NAMASTE_THRESHOLD then r2.dismiss else r2).update := by
    rw [update_main m gs tr jit he hb]
    show (TechniqueManager.purpleActiveRegion _ gs tr).red.update = _
    rw [purpleActiveRegion_red, purpleTrigger_red]
    exact congrArg CursedEnergy.update (redRegion_spawning (m.blueRegion gs tr) gs tr h1)
  refine ⟨?_, ?_, ?_⟩
  · intro hd
    rw [hkey]
    dsimp only
    rw [if_pos hd]
    exact ⟨rfl, rfl⟩
  · intro hd hs
    rw [hkey]
    dsimp only
    rw [if_neg hd]
    by_cases h0 : gs.hand_distance ≥ 0
    · simp only [if_pos h0] at hs ⊢
      rw [if_pos hs]
      exact ⟨rfl, rfl⟩
    · simp only [if_neg h0] at hs ⊢
      rw [if_pos hs]
      exact ⟨rfl, rfl⟩
  · intro hd hs
    rw [hkey]
    dsimp only
    rw [if_neg hd]
    by_cases h0 : gs.hand_distance ≥ 0
    · simp only [if_pos h0] at hs ⊢
      rw [if_neg hs, CursedEnergy.update_state, CursedEnergy.update_scale]
      exact ⟨h1, rfl⟩
    · simp only [if_neg h0] at hs ⊢
      rw [if_neg hs, CursedEnergy.update_state, CursedEnergy.update_scale]
      exact ⟨h1, rfl⟩

/-- Manager with Red mid-spawn at scale 1/2. -/
def mC7 : TechniqueManager :=
  { TechniqueManager.init with
      red := { CursedEnergy.init (6/100) with state := EnergyState.SPAWNING, scale := 1/2 } }

/-- Manager with Red mid-spawn at scale 0.94 (one fallback increment from activation). -/
def mC7a : TechniqueManager :=
  { TechniqueManager.init with
      red := { CursedEnergy.init (6/100) with state := EnergyState.SPAWNING, scale := 94/100 } }

/-- Gesture state with an available hand distance of 0.3. -/
def gsC7d : GestureState := { emptyState with hand_distance := 3/10 }

/-- Gesture state with an available hand distance of 0.1 (inside the namaste zone). -/
def gsC7n : GestureState := { emptyState with hand_distance := 1/10 }

theorem claim_C7_witness :
    ((mC7.update gsC7n TrackerDeltas.zero Jitter.zero).red.state = EnergyState.INACTIVE ∧
     (mC7.update gsC7n TrackerDeltas.zero Jitter.zero).red.scale = 0) ∧
    ((mC7a.update emptyState TrackerDeltas.zero Jitter.zero).red.state =
       EnergyState.ACTIVE ∧
     (mC7a.update emptyState TrackerDeltas.zero Jitter.zero).red.scale = 1) ∧
    ((mC7.update gsC7d TrackerDeltas.zero Jitter.zero).red.state =
       EnergyState.SPAWNING ∧
     (mC7.update gsC7d TrackerDeltas.zero Jitter.zero).red.scale =
       (if gsC7d.hand_distance ≥ 0 then
          mC7.red.scale + (max 0 (min 1 ((gsC7d.hand_distance - NAMASTE_THRESHOLD) /
              (APART_THRESHOLD - NAMASTE_THRESHOLD))) - mC7.red.scale) * (15/100)
        else mC7.red.scale + SPAWN_SCALE_SPEED)) :=
  ⟨(claim_C7 mC7 gsC7n TrackerDeltas.zero Jitter.zero rfl rfl rfl).1
      ⟨by norm_num [gsC7n, emptyState],
       by norm_num [gsC7n, emptyState, NAMASTE_THRESHOLD]⟩,
   (claim_C7 mC7a emptyState TrackerDeltas.zero Jitter.zero rfl rfl rfl).2.1
      (by norm_num [emptyState, NAMASTE_THRESHOLD])
      (by norm_num [emptyState, mC7a, TechniqueManager.init, CursedEnergy.init,
            SPAWN_SCALE_SPEED]),
   (claim_C7 mC7 gsC7d TrackerDeltas.zero Jitter.zero rfl rfl rfl).2.2
      (by norm_num [gsC7d, emptyState, NAMASTE_THRESHOLD])
      (by norm_num [gsC7d, emptyState, mC7, TechniqueManager.init, CursedEnergy.init,
            NAMASTE_THRESHOLD, APART_THRESHOLD, min_def, max_def])⟩

lemma runTM_nil (m : TechniqueManager) : runTM m [] = m := rfl

lemma runTM_cons (m : TechniqueManager) (i : TMInput) (l : List TMInput) :
    runTM m (i :: l) = runTM (m.update i.gs i.tr i.jit) l := rfl

lemma runTM_append (m : TechniqueManager) (a b : List TMInput) :
    runTM m (a ++ b) = runTM (runTM m a) b := by
  simp [runTM, List.foldl_append]

lemma purpleActiveRegion_fire (m : TechniqueManager) (gs : GestureState)
    (tr : TrackerDeltas) (hp : m.purple.state = EnergyState.ACTIVE)
    (h1 : gs.crossed_fingers = true) (h2 : m.was_right_crossed = false) :
    m.purpleActiveRegion gs tr =
      { m with
          purple := m.purple.move (-tr.right_dx * (CANVAS_WIDTH : ℚ) * VOID_MOVE_SPEED)
                                  (tr.right_dy * (CANVAS_HEIGHT : ℚ) * VOID_MOVE_SPEED)
          exploding := true
          explosion_timer := 0
          explosion_posx := (m.purple.move
            (-tr.right_dx * (CANVAS_WIDTH : ℚ) * VOID_MOVE_SPEED)
            (tr.right_dy * (CANVAS_HEIGHT : ℚ) * VOID_MOVE_SPEED)).posx
          explosion_posy := (m.purple.move
            (-tr.right_dx * (CANVAS_WIDTH : ℚ) * VOID_MOVE_SPEED)
            (tr.right_dy * (CANVAS_HEIGHT : ℚ) * VOID_MOVE_SPEED)).posy } := by
  unfold TechniqueManager.purpleActiveRegion
  rw [if_pos hp]
  dsimp only
  rw [if_pos ⟨h1, h2⟩]

lemma explosionTick_phase1 (m : TechniqueManager)
    (hp : m.purple.state ≠ EnergyState.INACTIVE)
    (ht : m.explosion_timer + 1 ≤ 18) :
    m.explosionTick =
      { m with
          purple := { m.purple with
            scale := max 0 (1 - ((m.explosion_timer + 1 : Nat) : ℚ) / (EXPLOSION_FRAMES : ℚ) * 2) },
          explosion_timer := m.explosion_timer + 1 } := by
  have hprog : ¬(((m.explosion_timer + 1 : Nat) : ℚ) / (EXPLOSION_FRAMES : ℚ) > 3/10) := by
    rw [not_lt, div_le_iff₀ (by norm_num [EXPLOSION_FRAMES])]
    norm_num [EXPLOSION_FRAMES]
    exact_mod_cast ht
  have htim : ¬(m.explosion_timer + 1 ≥ EXPLOSION_FRAMES) := by
    unfold EXPLOSION_FRAMES
    omega
  unfold TechniqueManager.explosionTick
  dsimp only
  rw [if_pos hp, if_neg hprog, if_neg htim]

lemma explosionTick_tick19 (m : TechniqueManager)
    (hp : m.purple.state ≠ EnergyState.INACTIVE)
    (ht : m.explosion_timer = 18) :
    m.explosionTick.purple.state = EnergyState.INACTIVE ∧
    m.explosionTick.purple.scale = 0 ∧
    m.explosionTick.exploding = m.exploding ∧
    m.explosionTick.explosion_timer = 19 := by
  have hprog : ((m.explosion_timer + 1 : Nat) : ℚ) / (EXPLOSION_FRAMES : ℚ) > 3/10 := by
    rw [ht, gt_iff_lt, lt_div_iff₀ (by norm_num [EXPLOSION_FRAMES])]
    norm_num [EXPLOSION_FRAMES]
  have htim : ¬(m.explosion_timer + 1 ≥ EXPLOSION_FRAMES) := by
    unfold EXPLOSION_FRAMES
    omega
  unfold TechniqueManager.explosionTick
  dsimp only
  rw [if_pos hp, if_pos hprog, if_neg htim]
  refine ⟨rfl, rfl, rfl, ?_⟩
  show m.explosion_timer + 1 = 19
  omega

lemma explosionTick_phase2 (m : TechniqueManager)
    (hp : m.purple.state = EnergyState.INACTIVE)
    (ht : m.explosion_timer + 1 < 60) :
    m.explosionTick = { m with explosion_timer := m.explosion_timer + 1 } := by
  unfold TechniqueManager.explosionTick
  dsimp only
  rw [if_neg (not_not_intro hp), if_neg]
  show ¬(m.explosion_timer + 1 ≥ EXPLOSION_FRAMES)
  unfold EXPLOSION_FRAMES
  omega

lemma explosionTick_final (m : TechniqueManager)
    (hp : m.purple.state = EnergyState.INACTIVE)
    (ht : m.explosion_timer = 59) :
    m.explosionTick = { m with exploding := false, explosion_timer := 0 } := by
  unfold TechniqueManager.explosionTick
  dsimp only
  rw [if_neg (not_not_intro hp), if_pos]
  show m.explosion_timer + 1 ≥ EXPLOSION_FRAMES
  unfold EXPLOSION_FRAMES
  omega

/-- Running k ≤ 18 explosion ticks with Purple still alive: the timer
advances, Purple stays in its state, and its scale shows the shrink curve. -/
lemma explode_run1 : ∀ (k : Nat) (m : TechniqueManager) (inputs : List TMInput),
    inputs.length = k → m.exploding = true → m.purple.state = EnergyState.ACTIVE →
    m.explosion_timer + k ≤ 18 →
    (runTM m inputs).exploding = true ∧
    (runTM m inputs).explosion_timer = m.explosion_timer + k ∧
    (runTM m inputs).purple.state = EnergyState.ACTIVE ∧
    (0 < k → (runTM m inputs).purple.scale =
      max 0 (1 - ((m.explosion_timer + k : Nat) : ℚ) / (EXPLOSION_FRAMES : ℚ) * 2)) := by
  intro k
  induction k with
  | zero =>
      intro m inputs hlen he hp ht
      have hnil : inputs = [] := List.length_eq_zero.mp hlen
      subst hnil
      rw [runTM_nil]
      exact ⟨he, by omega, hp, by omega⟩
  | succ n ih =>
      intro m inputs hlen he hp ht
      cases inputs with
      | nil => exact absurd hlen (by simp)
      | cons i rest =>
          have hlen' : rest.length = n := by simpa using hlen
          rw [runTM_cons, update_exploding m i.gs i.tr i.jit he]
          have hm1 := explosionTick_phase1 m (by rw [hp]; intro hc; cases hc) (by omega)
          have he1 : m.explosionTick.exploding = true := by rw [hm1]; exact he
          have hp1 : m.explosionTick.purple.state = EnergyState.ACTIVE := by
            rw [hm1]; exact hp
          have ht1 : m.explosionTick.explosion_timer = m.explosion_timer + 1 := by
            rw [hm1]
          obtain ⟨a, b, c, d⟩ := ih m.explosionTick rest hlen' he1 hp1 (by rw [ht1]; omega)
          rw [ht1] at b d
          refine ⟨a, ?_, c, ?_⟩
          · rw [b]
            omega
          · intro _
            rcases Nat.eq_zero_or_pos n with hn | hn
            · subst hn
              have hnil : rest = [] := List.length_eq_zero.mp hlen'
              subst hnil
              rw [runTM_nil, hm1]
            · rw [d hn]
              have harith : m.explosion_timer + 1 + n = m.explosion_timer + (n + 1) := by
                omega
              rw [harith]

/-- Running explosion ticks with Purple already inactive and the timer
staying below EXPLOSION_FRAMES: only the timer advances. -/
lemma explode_run2 : ∀ (k : Nat) (m : TechniqueManager) (inputs : List TMInput),
    inputs.length = k → m.exploding = true →
    m.purple.state = EnergyState.INACTIVE →
    m.explosion_timer + k ≤ 59 →
    (runTM m inputs).exploding = true ∧
    (runTM m inputs).explosion_timer = m.explosion_timer + k ∧
    (runTM m inputs).purple = m.purple := by
  intro k
  induction k with
  | zero =>
      intro m inputs hlen he hp ht
      have hnil : inputs = [] := List.length_eq_zero.mp hlen
      subst hnil
      rw [runTM_nil]
      exact ⟨he, by omega, rfl⟩
  | succ n ih =>
      intro m inputs hlen he hp ht
      cases inputs with
      | nil => exact absurd hlen (by simp)
      | cons i rest =>
          have hlen' : rest.length = n := by simpa using hlen
          rw [runTM_cons, update_exploding m i.gs i.tr i.jit he]
          have hm1 := explosionTick_phase2 m hp (by omega)
          have he1 : m.explosionTick.exploding = true := by rw [hm1]; exact he
          have hp1 : m.explosionTick.purple.state = EnergyState.INACTIVE := by
            rw [hm1]; exact hp
          have ht1 : m.explosionTick.explosion_timer = m.explosion_timer + 1 := by
            rw [hm1]
          obtain ⟨a, b, c⟩ := ih m.explosionTick rest hlen' he1 hp1 (by rw [ht1]; omega)
          rw [ht1] at b
          refine ⟨a, by rw [b]; omega, ?_⟩
          rw [c, hm1]

/-! ## Claim C5 -/

/-- C5: with Purple ACTIVE and a rising edge on the right-hand
crossed-fingers flag (flag true, `was_right_crossed` false), no lock-out
active, zero right-hand deltas and Purple's position inside the clamp
bounds: the tick sets `exploding` with `explosion_timer` 0 and captures the
explosion center at Purple's current position.  During the following
explosion ticks (whose inputs are ignored), after k ticks with 1 ≤ k ≤ 18
Purple is still ACTIVE with scale `max 0 (1 − 2·(k/60))`; on tick 19 (the
first tick with progress > 0.3) Purple is force-dismissed (INACTIVE, scale
0) while the explosion continues; and after tick 60 `exploding` is false
with `explosion_timer` reset to 0. -/
theorem claim_C5 (m : TechniqueManager) (gs : GestureState) (tr : TrackerDeltas)
    (jit : Jitter)
    (he : m.exploding = false) (hb : m.blending = false)
    (hp : m.purple.state = EnergyState.ACTIVE)
    (hcx : gs.crossed_fingers = true) (hwc : m.was_right_crossed = false)
    (htrx : tr.right_dx = 0) (htry : tr.right_dy = 0)
    (hx1 : 40 ≤ m.purple.posx) (hx2 : m.purple.posx ≤ CANVAS_WIDTH - 40)
    (hy1 : 40 ≤ m.purple.posy) (hy2 : m.purple.posy ≤ CANVAS_HEIGHT - 40) :
    (m.update gs tr jit).exploding = true ∧
    (m.update gs tr jit).explosion_timer = 0 ∧
    (m.update gs tr jit).explosion_posx = m.purple.posx ∧
    (m.update gs tr jit).explosion_posy = m.purple.posy ∧
    (m.update gs tr jit).purple.state = EnergyState.ACTIVE ∧
    (∀ inputs : List TMInput, 0 < inputs.length → inputs.length ≤ 18 →
      (runTM (m.update gs tr jit) inputs).exploding = true ∧
      (runTM (m.update gs tr jit) inputs).purple.state = EnergyState.ACTIVE ∧
      (runTM (m.update gs tr jit) inputs).purple.scale =
        max 0 (1 - ((inputs.length : Nat) : ℚ) / (EXPLOSION_FRAMES : ℚ) * 2)) ∧
    (∀ inputs : List TMInput, inputs.length = 19 →
      (runTM (m.update gs tr jit) inputs).exploding = true ∧
      (runTM (m.update gs tr jit) inputs).purple.state = EnergyState.INACTIVE ∧
      (runTM (m.update gs tr jit) inputs).purple.scale = 0) ∧
    (∀ inputs : List TMInput, inputs.length = 60 →
      (runTM (m.update gs tr jit) inputs).exploding = false ∧
      (runTM (m.update gs tr jit) inputs).explosion_timer = 0 ∧
      (runTM (m.update gs tr jit) inputs).purple.state = EnergyState.INACTIVE) := by
  have hYp : (TechniqueManager.redRegion (TechniqueManager.blueRegion m gs tr) gs
      tr).purple.state = EnergyState.ACTIVE := hp
  have hYw : (TechniqueManager.redRegion (TechniqueManager.blueRegion m gs tr) gs
      tr).was_right_crossed = false := hwc
  have hmx : -tr.right_dx * (CANVAS_WIDTH : ℚ) * VOID_MOVE_SPEED = 0 := by
    rw [htrx]; ring
  have hmy : tr.right_dy * (CANVAS_HEIGHT : ℚ) * VOID_MOVE_SPEED = 0 := by
    rw [htry]; ring
  have hmove : (TechniqueManager.redRegion (TechniqueManager.blueRegion m gs tr) gs
        tr).purple.move (-tr.right_dx * (CANVAS_WIDTH : ℚ) * VOID_MOVE_SPEED)
        (tr.right_dy * (CANVAS_HEIGHT : ℚ) * VOID_MOVE_SPEED) = m.purple := by
    rw [hmx, hmy]
    exact CursedEnergy.move_zero_id m.purple hx1 hx2 hy1 hy2
  have hchain : m.update gs tr jit =
      TechniqueManager.animUpdate (TechniqueManager.trackEdges
        { TechniqueManager.redRegion (TechniqueManager.blueRegion m gs tr) gs tr with
            purple := m.purple, exploding := true, explosion_timer := 0,
            explosion_posx := m.purple.posx, explosion_posy := m.purple.posy } gs) := by
    rw [update_main m gs tr jit he hb,
        purpleTrigger_not_inactive _ (by rw [hYp]; intro hc; cases hc),
        purpleActiveRegion_fire _ gs tr hYp hcx hYw, hmove]
  have h1 : (m.update gs tr jit).exploding = true := by rw [hchain]; rfl
  have h2 : (m.update gs tr jit).explosion_timer = 0 := by rw [hchain]; rfl
  have h3 : (m.update gs tr jit).explosion_posx = m.purple.posx := by rw [hchain]; rfl
  have h4 : (m.update gs tr jit).explosion_posy = m.purple.posy := by rw [hchain]; rfl
  have h5 : (m.update gs tr jit).purple.state = EnergyState.ACTIVE := by
    rw [hchain]
    show m.purple.update.state = EnergyState.ACTIVE
    rw [CursedEnergy.update_state]
    exact hp
  have hrun1 : ∀ inputs : List TMInput, 0 < inputs.length → inputs.length ≤ 18 →
      (runTM (m.update gs tr jit) inputs).exploding = true ∧
      (runTM (m.update gs tr jit) inputs).purple.state = EnergyState.ACTIVE ∧
      (runTM (m.update gs tr jit) inputs).purple.scale =
        max 0 (1 - ((inputs.length : Nat) : ℚ) / (EXPLOSION_FRAMES : ℚ) * 2) ∧
      (runTM (m.update gs tr jit) inputs).explosion_timer = inputs.length := by
    intro inputs hpos h18
    obtain ⟨a, b, c, d⟩ := explode_run1 inputs.length (m.update gs tr jit) inputs rfl
      h1 h5 (by rw [h2]; omega)
    rw [h2, Nat.zero_add] at b d
    exact ⟨a, c, d hpos, b⟩
  have hrun19 : ∀ inputs : List TMInput, inputs.length = 19 →
      (runTM (m.update gs tr jit) inputs).exploding = true ∧
      (runTM (m.update gs tr jit) inputs).purple.state = EnergyState.INACTIVE ∧
      (runTM (m.update gs tr jit) inputs).purple.scale = 0 ∧
      (runTM (m.update gs tr jit) inputs).explosion_timer = 19 := by
    intro inputs hlen
    rw [← List.take_append_drop 18 inputs, runTM_append]
    obtain ⟨a, b, _, c⟩ := hrun1 (inputs.take 18)
      (by rw [List.length_take]; omega) (by rw [List.length_take]; omega)
    rw [List.length_take] at c
    have hc18 : min 18 inputs.length = 18 := by omega
    rw [hc18] at c
    have hdrop1 : (inputs.drop 18).length = 1 := by rw [List.length_drop, hlen]
    obtain ⟨i, hi⟩ := List.length_eq_one.mp hdrop1
    rw [hi, runTM_cons, runTM_nil,
        update_exploding (runTM (m.update gs tr jit) (inputs.take 18)) i.gs i.tr i.jit a]
    obtain ⟨s1, s2, s3, s4⟩ := explosionTick_tick19
      (runTM (m.update gs tr jit) (inputs.take 18))
      (by rw [b]; intro hcc; cases hcc) c
    exact ⟨by rw [s3]; exact a, s1, s2, s4⟩
  refine ⟨h1, h2, h3, h4, h5, fun inputs hpos h18 => ?_, fun inputs hlen => ?_,
    fun inputs hlen => ?_⟩
  · obtain ⟨a, b, c, _⟩ := hrun1 inputs hpos h18
    exact ⟨a, b, c⟩
  · obtain ⟨a, b, c, _⟩ := hrun19 inputs hlen
    exact ⟨a, b, c⟩
  · rw [← List.take_append_drop 19 inputs, runTM_append]
    obtain ⟨a, b, _, d⟩ := hrun19 (inputs.take 19) (by rw [List.length_take]; omega)
    rw [← List.take_append_drop 40 (inputs.drop 19), runTM_append]
    obtain ⟨a2, b2, c2⟩ := explode_run2 40 (runTM (m.update gs tr jit) (inputs.take 19))
      ((inputs.drop 19).take 40)
      (by rw [List.length_take, List.length_drop, hlen]; omega)
      a b (by rw [d])
    rw [d] at b2
    have hlast : ((inputs.drop 19).drop 40).length = 1 := by
      rw [List.length_drop, List.length_drop, hlen]
    obtain ⟨i, hi⟩ := List.length_eq_one.mp hlast
    rw [hi, runTM_cons, runTM_nil, update_exploding _ i.gs i.tr i.jit a2]
    rw [explosionTick_final _ (by rw [c2]; exact b) b2]
    refine ⟨rfl, rfl, ?_⟩
    show (runTM (runTM (m.update gs tr jit) (inputs.take 19))
      ((inputs.drop 19).take 40)).purple.state = EnergyState.INACTIVE
    rw [c2]
    exact b

/-- Manager with Purple fully active at the canvas center. -/
def mC5 : TechniqueManager :=
  { TechniqueManager.init with
      purple := { CursedEnergy.init (4/100) with state := EnergyState.ACTIVE, scale := 1 } }

/-- Gesture state with the right-hand crossed-fingers flag raised. -/
def gsC5 : GestureState := { emptyState with crossed_fingers := true }

/-- A neutral input tick (no gestures, zero deltas, zero jitter). -/
def inpC5 : TMInput := { gs := emptyState, tr := TrackerDeltas.zero, jit := Jitter.zero }

theorem claim_C5_witness :
    (mC5.update gsC5 TrackerDeltas.zero Jitter.zero).exploding = true ∧
    (mC5.update gsC5 TrackerDeltas.zero Jitter.zero).explosion_posx = mC5.purple.posx ∧
    (runTM (mC5.update gsC5 TrackerDeltas.zero Jitter.zero)
      (List.replicate 19 inpC5)).purple.state = EnergyState.INACTIVE ∧
    (runTM (mC5.update gsC5 TrackerDeltas.zero Jitter.zero)
      (List.replicate 60 inpC5)).exploding = false := by
  have H := claim_C5 mC5 gsC5 TrackerDeltas.zero Jitter.zero rfl rfl rfl rfl rfl rfl rfl
    (by decide) (by decide) (by decide) (by decide)
  exact ⟨H.1, H.2.2.1,
    (H.2.2.2.2.2.2.1 (List.replicate 19 inpC5) (by simp)).2.1,
    (H.2.2.2.2.2.2.2 (List.replicate 60 inpC5) (by simp)).1⟩

lemma blueRegion_active_hold (m : TechniqueManager) (gs : GestureState)
    (tr : TrackerDeltas) (h1 : m.blue.state = EnergyState.ACTIVE)
    (hf : gs.left_fist = false) (htx : tr.left_dx = 0) (hty : tr.left_dy = 0)
    (hx1 : 40 ≤ m.blue.posx) (hx2 : m.blue.posx ≤ CANVAS_WIDTH - 40)
    (hy1 : 40 ≤ m.blue.posy) (hy2 : m.blue.posy ≤ CANVAS_HEIGHT - 40) :
    (m.blueRegion gs tr).blue = m.blue := by
  have hmx : -tr.left_dx * (CANVAS_WIDTH : ℚ) * VOID_MOVE_SPEED = 0 := by rw [htx]; ring
  have hmy : tr.left_dy * (CANVAS_HEIGHT : ℚ) * VOID_MOVE_SPEED = 0 := by rw [hty]; ring
  show (if m.blue.state = EnergyState.INACTIVE then _ else _) = _
  rw [if_neg (by rw [h1]; intro hc; cases hc), if_neg (by rw [h1]; intro hc; cases hc)]
  dsimp only
  rw [if_neg (by rw [hf]; intro hc; cases hc), hmx, hmy]
  exact CursedEnergy.move_zero_id m.blue hx1 hx2 hy1 hy2

lemma redRegion_active_hold (m : TechniqueManager) (gs : GestureState)
    (tr : TrackerDeltas) (h1 : m.red.state = EnergyState.ACTIVE)
    (hf : gs.right_fist = false) (htx : tr.right_dx = 0) (hty : tr.right_dy = 0)
    (hx1 : 40 ≤ m.red.posx) (hx2 : m.red.posx ≤ CANVAS_WIDTH - 40)
    (hy1 : 40 ≤ m.red.posy) (hy2 : m.red.posy ≤ CANVAS_HEIGHT - 40) :
    (m.redRegion gs tr).red = m.red := by
  have hmx : -tr.right_dx * (CANVAS_WIDTH : ℚ) * VOID_MOVE_SPEED = 0 := by rw [htx]; ring
  have hmy : tr.right_dy * (CANVAS_HEIGHT : ℚ) * VOID_MOVE_SPEED = 0 := by rw [hty]; ring
  show (if m.red.state = EnergyState.INACTIVE then _ else _) = _
  rw [if_neg (by rw [h1]; intro hc; cases hc), if_neg (by rw [h1]; intro hc; cases hc)]
  dsimp only
  rw [if_neg (by rw [hf]; intro hc; cases hc), hmx, hmy]
  exact CursedEnergy.move_zero_id m.red hx1 hx2 hy1 hy2

lemma purpleTrigger_fire (m : TechniqueManager)
    (h1 : m.blue.state = EnergyState.ACTIVE) (h2 : m.red.state = EnergyState.ACTIVE)
    (h3 : m.purple.state = EnergyState.INACTIVE)
    (h4 : (m.blue.posx - m.red.posx) * (m.blue.posx - m.red.posx) +
          (m.blue.posy - m.red.posy) * (m.blue.posy - m.red.posy) <
          COLLISION_THRESHOLD * COLLISION_THRESHOLD) :
    m.purpleTrigger =
      { m with blending := true, blend_timer := 0,
               purple := m.purple.spawn (Int.fdiv (m.blue.posx + m.red.posx) 2)
                                        (Int.fdiv (m.blue.posy + m.red.posy) 2) } := by
  unfold TechniqueManager.purpleTrigger
  rw [if_pos ⟨h1, h2, h3, h4⟩]

lemma blendTick_blending_progress (m : TechniqueManager) (jit : Jitter)
    (ht : m.blend_timer + 1 < PURPLE_BLEND_FRAMES) :
    (m.blendTick jit).blending = m.blending := by
  unfold TechniqueManager.blendTick
  dsimp only
  split
  · exfalso
    omega
  · split <;> rfl

lemma blendTick_complete (m : TechniqueManager) (jit : Jitter)
    (ht : m.blend_timer + 1 ≥ PURPLE_BLEND_FRAMES) :
    (m.blendTick jit).blue.state = EnergyState.INACTIVE ∧
    (m.blendTick jit).red.state = EnergyState.INACTIVE ∧
    (m.blendTick jit).purple.state = EnergyState.ACTIVE ∧
    (m.blendTick jit).purple.scale = 1 ∧
    (m.blendTick jit).blending = false := by
  unfold TechniqueManager.blendTick
  dsimp only
  split
  · exact ⟨by rw [CursedEnergy.update_state]; rfl,
           by rw [CursedEnergy.update_state]; rfl,
           by rw [CursedEnergy.update_state]; rfl,
           by rw [CursedEnergy.update_scale]; rfl, rfl⟩
  · exfalso
    omega

/-- Running the blend lock-out to completion: from any blending state whose
timer reaches PURPLE_BLEND_FRAMES after exactly the given inputs, Blue and
Red end INACTIVE and Purple ends ACTIVE with scale 1, blending off. -/
lemma blend_run : ∀ (k : Nat) (m : TechniqueManager) (inputs : List TMInput),
    inputs.length = k → 0 < k → m.blending = true → m.exploding = false →
    m.blend_timer + k = PURPLE_BLEND_FRAMES →
    (runTM m inputs).blue.state = EnergyState.INACTIVE ∧
    (runTM m inputs).red.state = EnergyState.INACTIVE ∧
    (runTM m inputs).purple.state = EnergyState.ACTIVE ∧
    (runTM m inputs).purple.scale = 1 ∧
    (runTM m inputs).blending = false := by
  intro k
  induction k with
  | zero => intro m inputs _ h0 _ _ _; omega
  | succ n ih =>
      intro m inputs hlen _ hb he ht
      cases inputs with
      | nil => exact absurd hlen (by simp)
      | cons i rest =>
          have hlen' : rest.length = n := by simpa using hlen
          rw [runTM_cons, update_blending m i.gs i.tr i.jit he hb]
          rcases Nat.eq_zero_or_pos n with hn | hn
          · subst hn
            have hnil : rest = [] := List.length_eq_zero.mp hlen'
            subst hnil
            rw [runTM_nil]
            exact blendTick_complete m i.jit (by omega)
          · obtain ⟨hexp2, _, _, _, _, _, htt⟩ := blendTick_rest m i.jit
            have hbb : (m.blendTick i.jit).blending = true := by
              rw [blendTick_blending_progress m i.jit (by omega)]
              exact hb
            exact ih (m.blendTick i.jit) rest hlen' hn hbb (by rw [hexp2]; exact he)
              (by rw [htt]; omega)

/-! ## Claim C4 -/

/-- C4: with Blue and Red both ACTIVE, Purple INACTIVE, no lock-out active,
no fist gestures, zero tracker deltas and in-bounds positions whose squared
pixel distance is below COLLISION_THRESHOLD² (the squared form of
`sqrt(dx² + dy²) < 80`): the tick sets `blending` with `blend_timer` 0 and
spawns Purple (SPAWNING) at the integer midpoint of Blue and Red; and after
exactly PURPLE_BLEND_FRAMES (90) further ticks of `update` — whatever their
inputs — Blue and Red are INACTIVE and Purple is ACTIVE with scale exactly
1. -/
theorem claim_C4 (m : TechniqueManager) (gs : GestureState) (tr : TrackerDeltas)
    (jit : Jitter)
    (he : m.exploding = false) (hb : m.blending = false)
    (hblue : m.blue.state = EnergyState.ACTIVE)
    (hred : m.red.state = EnergyState.ACTIVE)
    (hpur : m.purple.state = EnergyState.INACTIVE)
    (hlf : gs.left_fist = false) (hrf : gs.right_fist = false)
    (htlx : tr.left_dx = 0) (htly : tr.left_dy = 0)
    (htrx : tr.right_dx = 0) (htry : tr.right_dy = 0)
    (hbx1 : 40 ≤ m.blue.posx) (hbx2 : m.blue.posx ≤ CANVAS_WIDTH - 40)
    (hby1 : 40 ≤ m.blue.posy) (hby2 : m.blue.posy ≤ CANVAS_HEIGHT - 40)
    (hrx1 : 40 ≤ m.red.posx) (hrx2 : m.red.posx ≤ CANVAS_WIDTH - 40)
    (hry1 : 40 ≤ m.red.posy) (hry2 : m.red.posy ≤ CANVAS_HEIGHT - 40)
    (hdist : (m.blue.posx - m.red.posx) * (m.blue.posx - m.red.posx) +
             (m.blue.posy - m.red.posy) * (m.blue.posy - m.red.posy) <
             COLLISION_THRESHOLD * COLLISION_THRESHOLD) :
    (m.update gs tr jit).blending = true ∧
    (m.update gs tr jit).blend_timer = 0 ∧
    (m.update gs tr jit).purple.state = EnergyState.SPAWNING ∧
    (m.update gs tr jit).purple.posx = Int.fdiv (m.blue.posx + m.red.posx) 2 ∧
    (m.update gs tr jit).purple.posy = Int.fdiv (m.blue.posy + m.red.posy) 2 ∧
    (∀ rest : List TMInput, rest.length = PURPLE_BLEND_FRAMES →
      (runTM (m.update gs tr jit) rest).blue.state = EnergyState.INACTIVE ∧
      (runTM (m.update gs tr jit) rest).red.state = EnergyState.INACTIVE ∧
      (runTM (m.update gs tr jit) rest).purple.state = EnergyState.ACTIVE ∧
      (runTM (m.update gs tr jit) rest).purple.scale = 1 ∧
      (runTM (m.update gs tr jit) rest).blending = false) := by
  have hXblue : (TechniqueManager.blueRegion m gs tr).blue = m.blue :=
    blueRegion_active_hold m gs tr hblue hlf htlx htly hbx1 hbx2 hby1 hby2
  have hYred : (TechniqueManager.redRegion (TechniqueManager.blueRegion m gs tr) gs
      tr).red = m.red :=
    redRegion_active_hold (TechniqueManager.blueRegion m gs tr) gs tr hred hrf
      htrx htry hrx1 hrx2 hry1 hry2
  have hYblue : (TechniqueManager.redRegion (TechniqueManager.blueRegion m gs tr) gs
      tr).blue = m.blue := hXblue
  have hY1 : (TechniqueManager.redRegion (TechniqueManager.blueRegion m gs tr) gs
      tr).blue.state = EnergyState.ACTIVE := by rw [hYblue]; exact hblue
  have hY2 : (TechniqueManager.redRegion (TechniqueManager.blueRegion m gs tr) gs
      tr).red.state = EnergyState.ACTIVE := by rw [hYred]; exact hred
  have hY4 : ((TechniqueManager.redRegion (TechniqueManager.blueRegion m gs tr) gs
        tr).blue.posx - (TechniqueManager.redRegion (TechniqueManager.blueRegion m gs
        tr) gs tr).red.posx) *
      ((TechniqueManager.redRegion (TechniqueManager.blueRegion m gs tr) gs
        tr).blue.posx - (TechniqueManager.redRegion (TechniqueManager.blueRegion m gs
        tr) gs tr).red.posx) +
      ((TechniqueManager.redRegion (TechniqueManager.blueRegion m gs tr) gs
        tr).blue.posy - (TechniqueManager.redRegion (TechniqueManager.blueRegion m gs
        tr) gs tr).red.posy) *
      ((TechniqueManager.redRegion (TechniqueManager.blueRegion m gs tr) gs
        tr).blue.posy - (TechniqueManager.redRegion (TechniqueManager.blueRegion m gs
        tr) gs tr).red.posy) <
      COLLISION_THRESHOLD * COLLISION_THRESHOLD := by
    rw [hYblue, hYred]
    exact hdist
  have hchain : m.update gs tr jit =
      TechniqueManager.animUpdate (TechniqueManager.trackEdges
        { TechniqueManager.redRegion (TechniqueManager.blueRegion m gs tr) gs tr with
            blending := true, blend_timer := 0,
            purple := (TechniqueManager.redRegion (TechniqueManager.blueRegion m gs
                tr) gs tr).purple.spawn
              (Int.fdiv ((TechniqueManager.redRegion (TechniqueManager.blueRegion m gs
                tr) gs tr).blue.posx + (TechniqueManager.redRegion
                (TechniqueManager.blueRegion m gs tr) gs tr).red.posx) 2)
              (Int.fdiv ((TechniqueManager.redRegion (TechniqueManager.blueRegion m gs
                tr) gs tr).blue.posy + (TechniqueManager.redRegion
                (TechniqueManager.blueRegion m gs tr) gs tr).red.posy) 2) } gs) := by
    rw [update_main m gs tr jit he hb,
        purpleTrigger_fire _ hY1 hY2 hpur hY4,
        purpleActiveRegion_not_active _ gs tr (fun hc => EnergyState.noConfusion hc)]
  have h1 : (m.update gs tr jit).blending = true := by rw [hchain]; rfl
  have h2 : (m.update gs tr jit).blend_timer = 0 := by rw [hchain]; rfl
  have h3 : (m.update gs tr jit).purple.state = EnergyState.SPAWNING := by
    rw [hchain]
    show ((TechniqueManager.redRegion (TechniqueManager.blueRegion m gs tr) gs
      tr).purple.spawn _ _).update.state = EnergyState.SPAWNING
    rw [CursedEnergy.update_state]
    rfl
  have h4 : (m.update gs tr jit).purple.posx =
      Int.fdiv (m.blue.posx + m.red.posx) 2 := by
    rw [hchain]
    show ((TechniqueManager.redRegion (TechniqueManager.blueRegion m gs tr) gs
      tr).purple.spawn _ _).update.posx = _
    rw [CursedEnergy.update_posx]
    show Int.fdiv ((TechniqueManager.redRegion (TechniqueManager.blueRegion m gs
      tr) gs tr).blue.posx + (TechniqueManager.redRegion
      (TechniqueManager.blueRegion m gs tr) gs tr).red.posx) 2 = _
    rw [hYblue, hYred]
  have h5 : (m.update gs tr jit).purple.posy =
      Int.fdiv (m.blue.posy + m.red.posy) 2 := by
    rw [hchain]
    show ((TechniqueManager.redRegion (TechniqueManager.blueRegion m gs tr) gs
      tr).purple.spawn _ _).update.posy = _
    rw [CursedEnergy.update_posy]
    show Int.fdiv ((TechniqueManager.redRegion (TechniqueManager.blueRegion m gs
      tr) gs tr).blue.posy + (TechniqueManager.redRegion
      (TechniqueManager.blueRegion m gs tr) gs tr).red.posy) 2 = _
    rw [hYblue, hYred]
  have hm1e : (m.update gs tr jit).exploding = false := by rw [hchain]; exact he
  have hm1t : (m.update gs tr jit).blend_timer = 0 := h2
  refine ⟨h1, h2, h3, h4, h5, fun rest hlen => ?_⟩
  exact blend_run PURPLE_BLEND_FRAMES (m.update gs tr jit) rest hlen
    (by norm_num [PURPLE_BLEND_FRAMES]) h1 hm1e (by rw [hm1t]; omega)

/-- Manager with Blue and Red both ACTIVE 60px apart, Purple idle. -/
def mC4 : TechniqueManager :=
  { TechniqueManager.init with
      blue := { CursedEnergy.init (-(8/100)) with
        state := EnergyState.ACTIVE, scale := 1, posx := 600, posy := 360 }
      red := { CursedEnergy.init (6/100) with
        state := EnergyState.ACTIVE, scale := 1, posx := 660, posy := 360 } }

theorem claim_C4_witness :
    (mC4.update emptyState TrackerDeltas.zero Jitter.zero).blending = true ∧
    (mC4.update emptyState TrackerDeltas.zero Jitter.zero).purple.posx =
      Int.fdiv (mC4.blue.posx + mC4.red.posx) 2 ∧
    (runTM (mC4.update emptyState TrackerDeltas.zero Jitter.zero)
      (List.replicate 90 inpC5)).blue.state = EnergyState.INACTIVE ∧
    (runTM (mC4.update emptyState TrackerDeltas.zero Jitter.zero)
      (List.replicate 90 inpC5)).red.state = EnergyState.INACTIVE ∧
    (runTM (mC4.update emptyState TrackerDeltas.zero Jitter.zero)
      (List.replicate 90 inpC5)).purple.state = EnergyState.ACTIVE ∧
    (runTM (mC4.update emptyState TrackerDeltas.zero Jitter.zero)
      (List.replicate 90 inpC5)).purple.scale = 1 := by
  have H := claim_C4 mC4 emptyState TrackerDeltas.zero Jitter.zero rfl rfl rfl rfl rfl
    rfl rfl rfl rfl rfl rfl (by decide) (by decide) (by decide) (by decide) (by decide)
    (by decide) (by decide) (by decide) (by decide)
  have HR := H.2.2.2.2.2 (List.replicate 90 inpC5) (by simp [PURPLE_BLEND_FRAMES])
  exact ⟨H.1, H.2.2.2.1, HR.1, HR.2.1, HR.2.2.1, HR.2.2.2.1⟩

lemma purpleTrigger_not_fire (m : TechniqueManager)
    (h : ¬(m.blue.state = EnergyState.ACTIVE ∧ m.red.state = EnergyState.ACTIVE ∧
           m.purple.state = EnergyState.INACTIVE ∧
           (m.blue.posx - m.red.posx) * (m.blue.posx - m.red.posx) +
             (m.blue.posy - m.red.posy) * (m.blue.posy - m.red.posy) <
             COLLISION_THRESHOLD * COLLISION_THRESHOLD)) :
    m.purpleTrigger = m := by
  unfold TechniqueManager.purpleTrigger
  rw [if_neg h]

lemma update_lockout_inputs (m : TechniqueManager) (gs gs' : GestureState)
    (tr tr' : TrackerDeltas) (jit : Jitter)
    (hl : m.blending = true ∨ m.exploding = true) :
    m.update gs tr jit = m.update gs' tr' jit := by
  cases he : m.exploding with
  | true => rw [update_exploding m gs tr jit he, update_exploding m gs' tr' jit he]
  | false =>
      have hb : m.blending = true := by
        rcases hl with h | h
        · exact h
        · rw [he] at h; cases h
      rw [update_blending m gs tr jit he hb, update_blending m gs' tr' jit he hb]

lemma blendTick_keeps_inactive (m : TechniqueManager) (jit : Jitter) :
    (m.blue.state = EnergyState.INACTIVE →
      (m.blendTick jit).blue.state = EnergyState.INACTIVE) ∧
    (m.red.state = EnergyState.INACTIVE →
      (m.blendTick jit).red.state = EnergyState.INACTIVE) := by
  unfold TechniqueManager.blendTick
  dsimp only
  constructor <;> intro h <;> simp only [CursedEnergy.update_state] <;> split
  · rfl
  · split
    · exact h
    · exact h
  · rfl
  · split
    · exact h
    · exact h

/-- One tick preserves the mutual-exclusion invariant. -/
lemma update_mutex_step (m : TechniqueManager) (gs : GestureState) (tr : TrackerDeltas)
    (jit : Jitter) (hm : m.blending = false ∨ m.exploding = false) :
    (m.update gs tr jit).blending = false ∨ (m.update gs tr jit).exploding = false := by
  cases he : m.exploding with
  | true =>
      have hb : m.blending = false := by
        rcases hm with h | h
        · exact h
        · rw [he] at h; cases h
      rw [update_exploding m gs tr jit he]
      left
      rw [(explosionTick_rest m).2.2.1]
      exact hb
  | false =>
      cases hb : m.blending with
      | true =>
          rw [update_blending m gs tr jit he hb]
          right
          rw [(blendTick_rest m jit).1]
          exact he
      | false =>
          rw [update_main m gs tr jit he hb]
          by_cases hcond :
            ((TechniqueManager.redRegion (TechniqueManager.blueRegion m gs tr) gs
                tr).blue.state = EnergyState.ACTIVE ∧
             (TechniqueManager.redRegion (TechniqueManager.blueRegion m gs tr) gs
                tr).red.state = EnergyState.ACTIVE ∧
             (TechniqueManager.redRegion (TechniqueManager.blueRegion m gs tr) gs
                tr).purple.state = EnergyState.INACTIVE ∧
             ((TechniqueManager.redRegion (TechniqueManager.blueRegion m gs tr) gs
                tr).blue.posx - (TechniqueManager.redRegion
                (TechniqueManager.blueRegion m gs tr) gs tr).red.posx) *
               ((TechniqueManager.redRegion (TechniqueManager.blueRegion m gs tr) gs
                tr).blue.posx - (TechniqueManager.redRegion
                (TechniqueManager.blueRegion m gs tr) gs tr).red.posx) +
               ((TechniqueManager.redRegion (TechniqueManager.blueRegion m gs tr) gs
                tr).blue.posy - (TechniqueManager.redRegion
                (TechniqueManager.blueRegion m gs tr) gs tr).red.posy) *
               ((TechniqueManager.redRegion (TechniqueManager.blueRegion m gs tr) gs
                tr).blue.posy - (TechniqueManager.redRegion
                (TechniqueManager.blueRegion m gs tr) gs tr).red.posy) <
               COLLISION_THRESHOLD * COLLISION_THRESHOLD)
          · right
            rw [purpleTrigger_fire _ hcond.1 hcond.2.1 hcond.2.2.1 hcond.2.2.2,
                purpleActiveRegion_not_active _ gs tr
                  (fun hc => EnergyState.noConfusion hc)]
            exact he
          · left
            rw [purpleTrigger_not_fire _ hcond]
            show (TechniqueManager.purpleActiveRegion _ gs tr).blending = false
            rw [purpleActiveRegion_blending]
            exact hb

/-- The mutual-exclusion invariant is preserved along any run. -/
lemma runTM_mutex : ∀ (inputs : List TMInput) (m : TechniqueManager),
    m.blending = false ∨ m.exploding = false →
    (runTM m inputs).blending = false ∨ (runTM m inputs).exploding = false := by
  intro inputs
  induction inputs with
  | nil => exact fun m hm => hm
  | cons i rest ih =>
      intro m hm
      rw [runTM_cons]
      exact ih _ (update_mutex_step m i.gs i.tr i.jit hm)

/-! ## Claim C8 -/

/-- C8: in every state reachable from the initial TechniqueManager state by
any sequence of updates with any inputs, `blending` and `exploding` are never
both true; and while either lock-out is active the gesture-driven Blue/Red
spawn, dismiss and collision logic does not run: the tick's result is
independent of the gesture state and the tracker deltas, an explosion tick
leaves Blue and Red completely untouched, and a blend tick never moves an
INACTIVE Blue or Red out of INACTIVE (in particular it spawns nothing). -/
theorem claim_C8 :
    (∀ inputs : List TMInput,
      (runTM TechniqueManager.init inputs).blending = false ∨
      (runTM TechniqueManager.init inputs).exploding = false) ∧
    (∀ (m : TechniqueManager) (gs gs' : GestureState) (tr tr' : TrackerDeltas)
       (jit : Jitter), m.blending = true ∨ m.exploding = true →
      m.update gs tr jit = m.update gs' tr' jit) ∧
    (∀ (m : TechniqueManager) (gs : GestureState) (tr : TrackerDeltas) (jit : Jitter),
      m.exploding = true →
      (m.update gs tr jit).blue = m.blue ∧ (m.update gs tr jit).red = m.red) ∧
    (∀ (m : TechniqueManager) (gs : GestureState) (tr : TrackerDeltas) (jit : Jitter),
      m.exploding = false → m.blending = true →
      (m.blue.state = EnergyState.INACTIVE →
        (m.update gs tr jit).blue.state = EnergyState.INACTIVE) ∧
      (m.red.state = EnergyState.INACTIVE →
        (m.update gs tr jit).red.state = EnergyState.INACTIVE)) := by
  refine ⟨fun inputs => runTM_mutex inputs TechniqueManager.init (Or.inl rfl),
    update_lockout_inputs, ?_, ?_⟩
  · intro m gs tr jit he
    rw [update_exploding m gs tr jit he]
    exact ⟨(explosionTick_rest m).1, (explosionTick_rest m).2.1⟩
  · intro m gs tr jit he hb
    rw [update_blending m gs tr jit he hb]
    exact blendTick_keeps_inactive m jit

/-- A manager mid-blend with Blue and Red already gone. -/
def mC8 : TechniqueManager := { TechniqueManager.init with blending := true }

theorem claim_C8_witness :
    ((runTM TechniqueManager.init [inpC5]).blending = false ∨
     (runTM TechniqueManager.init [inpC5]).exploding = false) ∧
    mC2.update gsC2 TrackerDeltas.zero Jitter.zero =
      mC2.update emptyState TrackerDeltas.zero Jitter.zero ∧
    ((mC2.update gsC2 TrackerDeltas.zero Jitter.zero).blue = mC2.blue ∧
     (mC2.update gsC2 TrackerDeltas.zero Jitter.zero).red = mC2.red) ∧
    ((mC8.update gsC2 TrackerDeltas.zero Jitter.zero).blue.state =
       EnergyState.INACTIVE ∧
     (mC8.update gsC2 TrackerDeltas.zero Jitter.zero).red.state =
       EnergyState.INACTIVE) := by
  have H := claim_C8
  refine ⟨H.1 [inpC5],
    H.2.1 mC2 gsC2 emptyState TrackerDeltas.zero TrackerDeltas.zero Jitter.zero
      (Or.inr rfl),
    H.2.2.1 mC2 gsC2 TrackerDeltas.zero Jitter.zero rfl, ?_⟩
  have H4 := H.2.2.2 mC8 gsC2 TrackerDeltas.zero Jitter.zero rfl rfl
  exact ⟨H4.1 rfl, H4.2 rfl⟩
